import Mathlib

/-!
Verification development for the CurhatKuy psychology-clinic chat backend
(`backend.py`).  The Python source is shallowly embedded: pure helper
functions become Lean functions over `List Char` / `String`, the mutable
session dictionary becomes an association list threaded through the
request handlers, and the external generative-text call becomes an oracle
parameter `gen : String → String` (the Python wrapper `gemini_generate`
never raises; failures come back as embedded strings, which the oracle
models directly).  JSON values decoded by `json.loads` are modelled by the
inductive `Json` below with exact rationals in place of Python ints and
floats; the model covers finite decimal numbers (Python's `NaN`/`Infinity`
acceptance and digit underscores in `float(str)` are modelled as parse
failures, which no theorem below depends on).  All recursion is
structural (fuel-indexed where needed) so every definition evaluates
inside the kernel.
-/

/-- JSON values as produced by `json.loads`.  Python ints and floats are
both modelled as exact rationals. -/
inductive Json where
  | null : Json
  | bool : Bool → Json
  | num : Rat → Json
  | str : String → Json
  | arr : List Json → Json
  | obj : List (String × Json) → Json

/-- Substring test on character lists, modelling Python's `in` operator on
strings (`needle in hay`). -/
def listSub (needle hay : List Char) : Bool :=
  match hay with
  | [] => needle.isEmpty
  | _ :: rest => (hay.take needle.length == needle) || listSub needle rest

/-- Python `needle in hay` for strings. -/
def pyIn (needle hay : String) : Bool := listSub needle.data hay.data

/-- Python `str.lower()` (ASCII model, matching the configuration data used
by the backend). -/
def pyLower (s : String) : String := String.mk (s.data.map Char.toLower)

/-- Python `str.strip()` (whitespace model: space, tab, CR, LF). -/
def pyStrip (s : String) : String :=
  String.mk (((s.data.dropWhile Char.isWhitespace).reverse.dropWhile Char.isWhitespace).reverse)

/-- Python truthiness fallback `a or b` for strings (`""` is falsy). -/
def pyOr (a b : String) : String := if a = "" then b else a

/-- JSON whitespace accepted by `json.loads` between tokens. -/
def jWs (c : Char) : Bool := c = ' ' || c = '\t' || c = '\n' || c = '\r'

/-- Skip JSON whitespace. -/
def skipWs (cs : List Char) : List Char := cs.dropWhile jWs

/-- Numeric value of a list of decimal digits. -/
def digsToNat (ds : List Char) : Nat := ds.foldl (fun n c => n * 10 + (c.toNat - 48)) 0

/-- Value of a simple JSON escape character (after a backslash). -/
def escChar (c : Char) : Option Char :=
  if c = '"' then some '"'
  else if c = '\\' then some '\\'
  else if c = '/' then some '/'
  else if c = 'b' then some (Char.ofNat 8)
  else if c = 'f' then some (Char.ofNat 12)
  else if c = 'n' then some '\n'
  else if c = 'r' then some '\r'
  else if c = 't' then some '\t'
  else none

/-- Hexadecimal digit value. -/
def hexVal (c : Char) : Option Nat :=
  if c.isDigit then some (c.toNat - 48)
  else if 'a' ≤ c && c ≤ 'f' then some (c.toNat - 87)
  else if 'A' ≤ c && c ≤ 'F' then some (c.toNat - 55)
  else none

/-- Body of a JSON string literal (the opening quote already consumed).
Returns the decoded string and the remaining input.  Surrogate escape
pairs are not combined; escapes denoting invalid scalar values are
rejected (no theorem below depends on them). -/
def jStrAux : Nat → List Char → List Char → Option (String × List Char)
  | 0, _, _ => none
  | fuel+1, acc, cs =>
    match cs with
    | [] => none
    | c :: rest =>
      if c = '"' then some (String.mk acc.reverse, rest)
      else if c = '\\' then
        match rest with
        | [] => none
        | e :: r2 =>
          if e = 'u' then
            match r2 with
            | h1 :: h2 :: h3 :: h4 :: r3 =>
              match hexVal h1, hexVal h2, hexVal h3, hexVal h4 with
              | some a, some b, some c2, some d =>
                let n := ((a * 16 + b) * 16 + c2) * 16 + d
                if n.isValidChar then jStrAux fuel (Char.ofNat n :: acc) r3 else none
              | _, _, _, _ => none
            | _ => none
          else
            match escChar e with
            | some ce => jStrAux fuel (ce :: acc) r2
            | none => none
      else if c.toNat < 32 then none
      else jStrAux fuel (c :: acc) rest

/-- Optional exponent part of a JSON number. -/
def jExpParse (cs : List Char) : Option (Int × List Char) :=
  match cs with
  | [] => some (0, cs)
  | c :: r =>
    if c = 'e' || c = 'E' then
      let sgn := match r with
        | d :: _ => if d = '-' then (-1 : Int) else 1
        | [] => 1
      let r2 := match r with
        | d :: rr => if d = '-' || d = '+' then rr else r
        | [] => r
      let eds := r2.takeWhile Char.isDigit
      let r3 := r2.dropWhile Char.isDigit
      if eds.isEmpty then none
      else some (sgn * (digsToNat eds : Int), r3)
    else some (0, cs)

/-- Apply a decimal exponent to a rational. -/
def applyExp (q : Rat) (e : Int) : Rat :=
  if e < 0 then q / (10 : Rat) ^ e.natAbs else q * (10 : Rat) ^ e.natAbs

/-- Rational value of a JSON number from sign, integer digits, fraction
digits and exponent. -/
def mkNum (neg : Bool) (ids fds : List Char) (e : Int) : Rat :=
  let m : Int := (digsToNat (ids ++ fds) : Int)
  let m := if neg then -m else m
  applyExp ((m : Rat) / (10 : Rat) ^ fds.length) e

/-- Strict JSON number grammar (no leading zeros, a dot demands fraction
digits), as accepted by `json.loads`. -/
def jNumParse (cs : List Char) : Option (Rat × List Char) :=
  let neg := match cs with
    | c :: _ => c == '-'
    | [] => false
  let cs1 := match cs with
    | c :: r => if c = '-' then r else cs
    | [] => cs
  let ids := cs1.takeWhile Char.isDigit
  let r1 := cs1.dropWhile Char.isDigit
  if ids.isEmpty then none
  else if 1 < ids.length && ids.headD '0' = '0' then none
  else
    let hasDot := match r1 with
      | c :: _ => c == '.'
      | [] => false
    let afterDot := match r1 with
      | _ :: r => if hasDot then r else r1
      | [] => r1
    let fds := if hasDot then afterDot.takeWhile Char.isDigit else []
    let r2 := if hasDot then afterDot.dropWhile Char.isDigit else r1
    if hasDot && fds.isEmpty then none
    else
      match jExpParse r2 with
      | some (e, r3) => some (mkNum neg ids fds e, r3)
      | none => none

/-- Parser modes: a value, the members of an object, or the elements of an
array (with the accumulator gathered so far). -/
inductive JMode where
  | val : JMode
  | mems : List (String × Json) → JMode
  | elems : List Json → JMode

/-- Insert a key into an object accumulator with Python-dict overwrite
semantics (last value wins, original position kept). -/
def insertKV (acc : List (String × Json)) (k : String) (v : Json) : List (String × Json) :=
  if acc.any (fun p => p.1 = k) then acc.map (fun p => if p.1 = k then (k, v) else p)
  else acc ++ [(k, v)]

/-- Fuel-indexed recursive-descent JSON parser modelling `json.loads`. -/
def jRun : Nat → JMode → List Char → Option (Json × List Char)
  | 0, _, _ => none
  | fuel+1, JMode.val, cs =>
    let cs1 := skipWs cs
    match cs1 with
    | [] => none
    | c :: rest =>
      if c = '{' then
        let cs2 := skipWs rest
        match cs2 with
        | c2 :: r2 => if c2 = '}' then some (Json.obj [], r2) else jRun fuel (JMode.mems []) cs2
        | [] => none
      else if c = '[' then
        let cs2 := skipWs rest
        match cs2 with
        | c2 :: r2 => if c2 = ']' then some (Json.arr [], r2) else jRun fuel (JMode.elems []) cs2
        | [] => none
      else if c = '"' then
        match jStrAux (rest.length + 1) [] rest with
        | some (s, r) => some (Json.str s, r)
        | none => none
      else if c = 't' then
        match cs1 with
        | 't' :: 'r' :: 'u' :: 'e' :: r => some (Json.bool true, r)
        | _ => none
      else if c = 'f' then
        match cs1 with
        | 'f' :: 'a' :: 'l' :: 's' :: 'e' :: r => some (Json.bool false, r)
        | _ => none
      else if c = 'n' then
        match cs1 with
        | 'n' :: 'u' :: 'l' :: 'l' :: r => some (Json.null, r)
        | _ => none
      else
        match jNumParse cs1 with
        | some (q, r) => some (Json.num q, r)
        | none => none
  | fuel+1, JMode.mems acc, cs =>
    let cs1 := skipWs cs
    match cs1 with
    | [] => none
    | c :: rest =>
      if c = '"' then
        match jStrAux (rest.length + 1) [] rest with
        | some (k, r1) =>
          match skipWs r1 with
          | c2 :: r2 =>
            if c2 = ':' then
              match jRun fuel JMode.val r2 with
              | some (v, r3) =>
                let acc2 := insertKV acc k v
                match skipWs r3 with
                | c3 :: r4 =>
                  if c3 = ',' then jRun fuel (JMode.mems acc2) r4
                  else if c3 = '}' then some (Json.obj acc2, r4)
                  else none
                | [] => none
              | none => none
            else none
          | [] => none
        | none => none
      else none
  | fuel+1, JMode.elems acc, cs =>
    match jRun fuel JMode.val cs with
    | some (v, r1) =>
      match skipWs r1 with
      | c2 :: r2 =>
        if c2 = ',' then jRun fuel (JMode.elems (acc ++ [v])) r2
        else if c2 = ']' then some (Json.arr (acc ++ [v]), r2)
        else none
      | [] => none
    | none => none

/-- Model of `json.loads`: parse a complete JSON document, allowing
surrounding whitespace; `none` models a raised `JSONDecodeError`. -/
def jsonLoads (s : String) : Option Json :=
  let cs := s.data
  match jRun (cs.length + 1) JMode.val cs with
  | some (v, rest) => if (skipWs rest).isEmpty then some v else none
  | none => none

/-- The span matched by `re.search(r"\x7b.*\x7d", s, re.S)`: from the first
opening brace to the last closing brace, provided the first `\x7b` precedes
the last `\x7d` (the regex is greedy and `re.S` lets `.` cross newlines). -/
def extractBraceSpan (cs : List Char) : Option (List Char) :=
  let ds := cs.dropWhile (fun c => c ≠ '{')
  let es := ds.reverse.dropWhile (fun c => c ≠ '}')
  if es.isEmpty then none else some es.reverse

/-- Model of `parse_json_obj` from `backend.py`: extract the brace span and
`json.loads` it, returning the empty object on any failure, never raising. -/
def parse_json_obj (s : String) : Json :=
  match extractBraceSpan s.data with
  | none => Json.obj []
  | some sp =>
    match jsonLoads (String.mk sp) with
    | some j => j
    | none => Json.obj []

/-- Python `d.get(k)` on a decoded JSON object: `some v` when the key is
present (`v` may be `Json.null`), `none` when absent or not a dict. -/
def jGet (j : Json) (k : String) : Option Json :=
  match j with
  | Json.obj kvs => (kvs.find? (fun p => p.1 = k)).map (fun p => p.2)
  | _ => none

/-- Python `float(str)` on a stripped decimal literal (sign, digits,
optional fraction, optional exponent).  `inf`/`nan` spellings and digit
underscores are modelled as failures; no theorem below depends on them. -/
def parseFloatLit (s : String) : Option Rat :=
  let cs := (pyStrip s).data
  let neg := match cs with
    | c :: _ => c == '-'
    | [] => false
  let cs1 := match cs with
    | c :: r => if c = '-' || c = '+' then r else cs
    | [] => cs
  let ids := cs1.takeWhile Char.isDigit
  let r1 := cs1.dropWhile Char.isDigit
  let hasDot := match r1 with
    | c :: _ => c == '.'
    | [] => false
  let afterDot := match r1 with
    | _ :: r => if hasDot then r else r1
    | [] => r1
  let fds := if hasDot then afterDot.takeWhile Char.isDigit else []
  let r2 := if hasDot then afterDot.dropWhile Char.isDigit else r1
  if ids.isEmpty && fds.isEmpty then none
  else
    match jExpParse r2 with
    | some (e, r3) => if r3.isEmpty then some (mkNum neg ids fds e) else none
    | none => none

/-- Python `float(x)` applied to a decoded JSON value; `none` models a
raised exception (caught by the caller). -/
def pyFloatOfJson : Json → Option Rat
  | Json.num q => some q
  | Json.bool b => some (if b then 1 else 0)
  | Json.str s => parseFloatLit s
  | _ => none

/-- Python `round(x, 3)` (round half to even) on the exact-rational model. -/
def pyRoundHalfEven (q : Rat) : Int :=
  let f := Rat.floor q
  let r := q - (f : Rat)
  if r < 1/2 then f
  else if 1/2 < r then f + 1
  else if f % 2 = 0 then f else f + 1

/-- Confidence rounded to three decimals, as in the terminal response. -/
def round3 (q : Rat) : Rat := (pyRoundHalfEven (q * 1000) : Rat) / 1000

/-- Characters accepted inside a `\x7b\x7bdotted.path\x7d\x7d` template
token, matching the regex class `[a-zA-Z0-9_.]`. -/
def isTmplName (c : Char) : Bool := c.isAlpha || c.isDigit || c = '_' || c = '.'

/-- Whitespace accepted around a template token name (`\s` of the regex,
ASCII model). -/
def isPySpace (c : Char) : Bool :=
  c = ' ' || c = '\t' || c = '\n' || c = '\r' || c = '\x0b' || c = '\x0c'

/-- Walk a dotted path through the templating context, as the loop in
`_template`'s `repl` does: fail as soon as a component is missing or the
current value is not a dict. -/
def ctxWalk (ctx : Json) (parts : List String) : Option Json :=
  match parts with
  | [] => some ctx
  | p :: ps =>
    match ctx with
    | Json.obj kvs =>
      match (kvs.find? (fun e => e.1 = p)).map (fun e => e.2) with
      | some v => ctxWalk v ps
      | none => none
    | _ => none

/-- Python `str(val)` for values a templating context can hold.  Strings
render verbatim (the fact the idempotence analysis depends on); integral
rationals render as integers; other shapes get a simple rendering that no
theorem below inspects. -/
def pyStr : Json → String
  | Json.null => "None"
  | Json.bool b => if b then "True" else "False"
  | Json.num q => if q.den = 1 then toString q.num else toString q
  | Json.str s => s
  | Json.arr _ => "[...]"
  | Json.obj _ => "\x7b...\x7d"

/-- Try to match a template token at the head of the input.  On success
returns the token name, the exact matched text and the rest of the input;
the match is deterministic because the character classes involved are
disjoint. -/
def matchTmplToken (cs : List Char) : Option (String × List Char × List Char) :=
  match cs with
  | c1 :: c2 :: r1 =>
    if c1 = '{' then
      if c2 = '{' then
        let sp1 := r1.takeWhile isPySpace
        let r2 := r1.dropWhile isPySpace
        let nm := r2.takeWhile isTmplName
        let r3 := r2.dropWhile isTmplName
        if nm.isEmpty then none
        else
          let sp2 := r3.takeWhile isPySpace
          let r4 := r3.dropWhile isPySpace
          match r4 with
          | d1 :: d2 :: r5 =>
            if d1 = '}' then
              if d2 = '}' then
                some (String.mk nm, c1 :: c2 :: (sp1 ++ nm ++ sp2 ++ [d1, d2]), r5)
              else none
            else none
          | _ => none
      else none
    else none
  | _ => none

/-- Python `name.split(".")` over the token name. -/
def splitDotAux : List Char → List Char → List String
  | acc, [] => [String.mk acc.reverse]
  | acc, c :: rest =>
    if c = '.' then String.mk acc.reverse :: splitDotAux [] rest
    else splitDotAux (c :: acc) rest

/-- Dotted-path components of a template token name. -/
def splitDot (nm : String) : List String := splitDotAux [] nm.data

/-- The `repl` callback of `_template`: substitute the resolved value, or
reproduce the matched text verbatim when the dotted path is absent. -/
def tmplRepl (ctx : Json) (nm : String) (matched : List Char) : List Char :=
  match ctxWalk ctx (splitDot nm) with
  | some v => (pyStr v).data
  | none => matched

/-- Left-to-right non-overlapping scan of `re.sub`, fuel-indexed. -/
def tmplSubAux : Nat → Json → List Char → List Char
  | 0, _, cs => cs
  | fuel+1, ctx, cs =>
    match matchTmplToken cs with
    | some (nm, matched, rest) => tmplRepl ctx nm matched ++ tmplSubAux fuel ctx rest
    | none =>
      match cs with
      | [] => []
      | c :: cs2 => c :: tmplSubAux fuel ctx cs2

/-- Model of `_template` from `backend.py`. -/
def _template (s : String) (ctx : Json) : String :=
  String.mk (tmplSubAux (s.data.length + 1) ctx s.data)

/-- Decidable check that every template token occurring in the string has
an unresolvable dotted path in the given context. -/
def allUnresolvedAux : Nat → Json → List Char → Bool
  | 0, _, _ => true
  | fuel+1, ctx, cs =>
    match matchTmplToken cs with
    | some (nm, _, rest) =>
      (ctxWalk ctx (splitDot nm)).isNone && allUnresolvedAux fuel ctx rest
    | none =>
      match cs with
      | [] => true
      | _ :: cs2 => allUnresolvedAux fuel ctx cs2

/-- Every token of the template references an absent path. -/
def allUnresolved (s : String) (ctx : Json) : Bool :=
  allUnresolvedAux (s.data.length + 1) ctx s.data

/-- Configuration snapshot as loaded by `Config._load_all`: keyword sets,
rendered messages, numeric settings, the suggestion map and the compiled
intent patterns.  The compiled regex patterns (`_compile_patterns`) are
modelled as opaque matcher functions bound in the snapshot, `none` when
the pattern string is empty. -/
structure Config where
  crisis_keywords : List String
  crisis_msg : String
  faq : List (String × String)
  faq_keys : List (String × List String)
  psy_words : List String
  suggestions : List (String × String)
  closing : String
  clinic_name : Option String
  max_turns : Nat
  classify_confidence : Rat
  reply_fallback : Option String
  patGreet : Option (String → Bool)
  patThanks : Option (String → Bool)
  patAck : Option (String → Bool)
  patWho : Option (String → Bool)
  patCan : Option (String → Bool)
  patAbout : Option (String → Bool)

/-- Model of `is_crisis`: the text is lowercased, the configured keywords
are used verbatim. -/
def is_crisis (cfg : Config) (text : String) : Bool :=
  let t := pyLower text
  cfg.crisis_keywords.any (fun k => pyIn k t)

/-- Model of `match_faq`: the first trigger group any of whose keywords
occurs in the lowercased text selects an answer key; `faq.get(key)` may
still be absent, in which case Python returns `None` exactly as when no
group fires. -/
def match_faq (cfg : Config) (text : String) : Option String :=
  let t := pyLower text
  match cfg.faq_keys.find? (fun e => e.2.any (fun w => pyIn w t)) with
  | some e => (cfg.faq.find? (fun p => p.1 = e.1)).map (fun p => p.2)
  | none => none

/-- Model of `is_psychology_domain` over the accumulated transcript. -/
def is_psychology_domain (cfg : Config) (texts : List String) : Bool :=
  let t := pyLower (String.intercalate " " texts)
  cfg.psy_words.any (fun w => pyIn w t)

/-- Apply an optional compiled pattern, `False` when the pattern is unset
(Python's `p and p.search(t)`). -/
def patSearch (p : Option (String → Bool)) (t : String) : Bool :=
  match p with
  | some f => f t
  | none => false

/-- Model of `is_smalltalk`: empty stripped text, or any of the greeting,
thanks or acknowledgement patterns. -/
def is_smalltalk (cfg : Config) (text : String) : Bool :=
  let t := pyStrip text
  if t = "" then true
  else patSearch cfg.patGreet t || patSearch cfg.patThanks t || patSearch cfg.patAck t

/-- Model of `match_meta_query`: the three compiled patterns first, then
the keyword-heuristic fallback over the lowercased text. -/
def match_meta_query (cfg : Config) (text : String) : Option String :=
  let t := pyStrip text
  if t = "" then none
  else if patSearch cfg.patWho t then some "who"
  else if patSearch cfg.patCan t then some "can"
  else if patSearch cfg.patAbout t then some "about"
  else
    let tl := pyLower t
    if (pyIn "kamu" tl || pyIn "curhatkuy" tl) &&
        (["siapa", "apa", "jelaskan", "tentang", "perkenalkan", "kenalan"].any
          (fun w => pyIn w tl)) then
      if ["bisa", "fitur", "kemampuan", "fungsi"].any (fun w => pyIn w tl) then some "can"
      else if pyIn "curhatkuy" tl then some "about"
      else some "who"
    else none

/-- Session record held in `chat_sessions`; `ts` is the last-activity
timestamp (seconds, modelled as an integer). -/
structure SessRec where
  turns : Nat
  texts : List String
  ended : Bool
  ts : Int
deriving DecidableEq

/-- The JSON body answered by `/chat`.  Optional keys of the Python dict
are `Option` fields (`none` means the key is absent from the response;
`some Json.null` means the key is present with value `null`). -/
structure ChatResponse where
  reply : String
  endFlag : Bool
  session_id : String
  remaining : Nat
  handoff : Option Bool := none
  category : Option Json := none
  confidence : Option Json := none

/-- Result of one `/chat` request on one session: the response, the
session record after the request, and the prompts sent to the generative
collaborator (in order).  `raised` is true when the handler aborts with an
uncaught exception (the `category in suggestions` membership test raises
`TypeError` for an unhashable — list or dict — category): FastAPI then
answers a 500 with no JSON body, so in that case the `resp` fields carry
no program output (they are kept only to keep the result type uniform),
while `sess` and `calls` still record the mutations and collaborator
calls performed before the raise. -/
structure ChatOut where
  resp : ChatResponse
  sess : SessRec
  calls : List String
  raised : Bool := false

/-- Python truthiness of `match_faq`'s result (`None` and `""` are falsy). -/
def truthyStr : Option String → Bool
  | none => false
  | some a => a ≠ ""

/-- Fixed reply for an already-ended session. -/
def ended_reply : String :=
  "Sesi ini sudah berakhir. Klik \x27Mulai Sesi Baru\x27 untuk memulai lagi."

/-- Fixed redirect-to-admin reply when the transcript never matched a
domain keyword. -/
def redirect_reply : String :=
  "Maaf, aku fokus pada topik psikologi & FAQ klinik. Kalau ada kebutuhan lain, Admin bisa membantu. Boleh ceritakan topik psikologi yang kamu pikirkan?"

/-- Fixed small-talk reply. -/
def smalltalk_reply : String :=
  "Halo! 😊\n\nAku siap bantu seputar **psikologi** (kecemasan, tidur anak, hubungan, burnout) atau **FAQ** klinik (jam, lokasi, layanan, tarif, booking). Ceritakan singkat yang ingin kamu bahas, ya."

/-- Default closing used when `closing.txt` is empty or missing. -/
def default_closing (mt : Nat) : String :=
  "Sesi chat berakhir (kebijakan " ++ toString mt ++ " pesan). Kamu bisa mulai sesi baru kapan saja."

/-- Default `reply_fallback` setting. -/
def default_fallback : String := "Baik, terima kasih sudah berbagi."

/-- Meta reply for the `who` intent. -/
def meta_who_reply (cName : String) : String :=
  "### Aku asisten " ++ cName ++ " 🤖\nAku membantu topik **psikologi** dan **FAQ** klinik."

/-- Meta reply for the `can` intent. -/
def meta_can_reply : String :=
  "### Yang bisa kulakukan\n1. Menjawab pertanyaan psikologi & langkah awal yang aman.\n2. Menjawab **FAQ** (jam, lokasi, layanan, tarif, booking).\n3. Setelah **5 pesan**, mengklasifikasikan topik & menyarankan tipe psikolog."

/-- Meta reply for the `about` intent. -/
def meta_about_reply (cName : String) : String :=
  "### Tentang " ++ cName ++ "\nLayanan klinik psikologi. Bot membantu menyaring kebutuhan sebelum buat janji."

/-- Python `texts[-mt:]`: the last `mt` entries, or the whole list when
`mt = 0` (Python slice semantics of `-0`). -/
def pyTailSlice (mt : Nat) (xs : List String) : List String :=
  if mt = 0 then xs else xs.drop (xs.length - mt)

/-- The classification prompt built at the terminal turn. -/
def cls_prompt (sugKeys : List String) (combined : String) : String :=
  "Klasifikasikan topik obrolan berikut ke salah satu label:\n" ++
    String.intercalate ", " (sugKeys ++ ["non_psikologi"]) ++
    ".\nBalas ONLY dalam JSON: \x7b\"category\":\"<label>\", \"confidence\": <0..1>\x7d\n\nOBROLAN:\n" ++
    combined

/-- `dataj.get("category", "non_psikologi")`: the parsed category value
when the key is present (possibly `null`), the sentinel string otherwise. -/
def terminal_category (dataj : Json) : Json :=
  (jGet dataj "category").getD (Json.str "non_psikologi")

/-- The confidence after `float(...)` conversion with exception fallback:
absent or `null` gives `None`; other values go through `float`, any
failure degrading to `None`. -/
def terminal_confidence (dataj : Json) : Option Rat :=
  match jGet dataj "confidence" with
  | none => none
  | some Json.null => none
  | some v => pyFloatOfJson v

/-- Whether Python can hash the decoded value as a dict key: `None`,
booleans, numbers and strings are hashable; lists and dicts raise
`TypeError: unhashable type` in a membership test such as
`category in suggestions`. -/
def jsonHashable : Json → Bool
  | Json.arr _ => false
  | Json.obj _ => false
  | _ => true

/-- `category in suggestions and (confidence is None or confidence >= conf_thr)`,
for a hashable category (`terminalStep` models the unhashable case — where
this very test raises `TypeError` — separately, so the wildcard branch
below is only ever reached by `None`, booleans and numbers, for which
Python's membership test is an ordinary `False` on the string-keyed
suggestion map). -/
def suggest_ok (cfg : Config) (category : Json) (conf : Option Rat) : Bool :=
  (match category with
    | Json.str c => cfg.suggestions.any (fun p => p.1 = c)
    | _ => false) &&
  (match conf with
    | none => true
    | some q => decide (cfg.classify_confidence ≤ q))

/-- `suggestions[category]` for a category known to be a suggestion key. -/
def sugLabel (cfg : Config) (category : Json) : String :=
  match category with
  | Json.str c => ((cfg.suggestions.find? (fun p => p.1 = c)).map (fun p => p.2)).getD ""
  | _ => ""

/-- The reply carrying a specialist recommendation plus closing text. -/
def suggestion_reply (base label closing : String) : String :=
  base ++ "\n\nDari obrolan kita, sepertinya kamu cocok berkonsultasi dengan **" ++
    label ++ "**. Mau jadwalkan sesi?\n" ++ closing

/-- The turn-limit termination step (`sess["turns"] >= max_turns` branch of
`chat`): classify the last `max_turns` transcript entries, append the
specialist recommendation or the closing text, mark the session ended.
When the parsed category is a list or dict, the membership test
`category in suggestions` raises `TypeError` before `sess["ended"]` is
set: the record then keeps the session active (with the turn already
counted and the classification call already made) and `raised` is true —
the `resp` fields are dead data in that case, as no response is produced
(see `ChatOut`). -/
def terminalStep (cfg : Config) (gen : String → String) (session_id : String)
    (reply : String) (calls1 : List String) (sess1 : SessRec) : ChatOut :=
  let closing := pyOr cfg.closing (default_closing cfg.max_turns)
  let combined := String.intercalate " " (pyTailSlice cfg.max_turns sess1.texts)
  let prompt := cls_prompt (cfg.suggestions.map (fun p => p.1)) combined
  let cat_raw := pyOr (gen prompt) "\x7b\x7d"
  let dataj := parse_json_obj cat_raw
  let category := terminal_category dataj
  let confidence := terminal_confidence dataj
  let hashable := jsonHashable category
  let reply2 :=
    if suggest_ok cfg category confidence then
      suggestion_reply reply (sugLabel cfg category) closing
    else reply ++ "\n\n" ++ closing
  { resp := { reply := if hashable then reply2 else reply,
              endFlag := hashable,
              session_id := session_id,
              remaining := if hashable then 0 else cfg.max_turns - sess1.turns,
              handoff := none,
              category := if hashable then some category else none,
              confidence := if hashable then
                  some (match confidence with
                    | some q => Json.num (round3 q)
                    | none => Json.null)
                else none }
    sess := { sess1 with ended := if hashable then true else sess1.ended }
    calls := calls1 ++ [prompt]
    raised := !hashable }

/-- The substantive-message path of `chat` (after the crisis, FAQ, meta and
small-talk branches all declined): count the turn, run the
domain-relevance gate, produce the generative or redirect reply and, when
the turn limit is reached, fall through to `terminalStep`. -/
def substantiveStep (cfg : Config) (gen : String → String) (session_id : String)
    (user_message : String) (sess : SessRec) : ChatOut :=
  let fallback := cfg.reply_fallback.getD default_fallback
  let sess1 :=
    if user_message ≠ "" then
      { sess with turns := sess.turns + 1, texts := sess.texts ++ [user_message] }
    else sess
  let domRel := is_psychology_domain cfg sess1.texts
  let reply := if !domRel then redirect_reply else pyOr (gen user_message) fallback
  let calls1 : List String := if !domRel then [] else [user_message]
  if cfg.max_turns ≤ sess1.turns then
    terminalStep cfg gen session_id reply calls1 sess1
  else
    { resp := { reply := reply, endFlag := false, session_id := session_id,
                remaining := cfg.max_turns - sess1.turns }
      sess := sess1
      calls := calls1 }

/-- One `/chat` request on one session record (the body of `chat` after
request parsing and `get_sess`), with the decision pipeline in source
order: ended check, crisis check, FAQ, meta, small talk, substantive
message. -/
def chatSess (cfg : Config) (gen : String → String) (session_id : String)
    (rawMsg : String) (sess : SessRec) : ChatOut :=
  let user_message := pyStrip rawMsg
  if sess.ended then
    { resp := { reply := ended_reply, endFlag := true, session_id := session_id, remaining := 0 }
      sess := sess
      calls := [] }
  else if is_crisis cfg user_message then
    { resp := { reply := cfg.crisis_msg, endFlag := true, session_id := session_id,
                remaining := 0, handoff := some true }
      sess := { sess with ended := true }
      calls := [] }
  else
    let faq_ans := match_faq cfg user_message
    if truthyStr faq_ans then
      let sess1 := { sess with turns := sess.turns + 1, texts := sess.texts ++ [user_message] }
      { resp := { reply := faq_ans.getD "", endFlag := false, session_id := session_id,
                  remaining := cfg.max_turns - sess1.turns }
        sess := sess1
        calls := [] }
    else
      match match_meta_query cfg user_message with
      | some meta =>
        let cName := cfg.clinic_name.getD "CurhatKuy"
        let reply :=
          if meta = "who" then meta_who_reply cName
          else if meta = "can" then meta_can_reply
          else meta_about_reply cName
        { resp := { reply := reply, endFlag := false, session_id := session_id,
                    remaining := cfg.max_turns - sess.turns }
          sess := sess
          calls := [] }
      | none =>
        if is_smalltalk cfg user_message then
          { resp := { reply := smalltalk_reply, endFlag := false, session_id := session_id,
                      remaining := cfg.max_turns - sess.turns }
            sess := sess
            calls := [] }
        else
          substantiveStep cfg gen session_id user_message sess

/-- The JSON body answered by `/status`. -/
structure StatusResponse where
  session_id : String
  remaining : Nat
  endFlag : Bool

/-- One `/status` request on one session record. -/
def statusSess (cfg : Config) (session_id : String) (sess : SessRec) : StatusResponse :=
  { session_id := session_id
    remaining := if sess.ended then 0 else cfg.max_turns - sess.turns
    endFlag := sess.ended }

/-- The session table (`chat_sessions`), an insertion-ordered dictionary
modelled as an association list. -/
abbrev Store := List (String × SessRec)

/-- First-match association-list lookup (Python dict indexing). -/
def lookupA (k : String) : Store → Option SessRec
  | [] => none
  | (k2, v) :: rest => if k2 = k then some v else lookupA k rest

/-- Replace the value at a key in place, keeping insertion order. -/
def updateA (k : String) (v : SessRec) : Store → Store
  | [] => []
  | (k2, v2) :: rest => if k2 = k then (k2, v) :: rest else (k2, v2) :: updateA k v rest

/-- The opportunistic sweep inside `get_sess`: when the table size is a
multiple of 100, drop sessions stale past one hour or already ended. -/
def sweepIf (now : Int) (st : Store) : Store :=
  if st.length % 100 = 0 then
    st.filter (fun e => !(decide (e.2.ts < now - 3600) || e.2.ended))
  else st

/-- Model of `get_sess`: create the session lazily (fresh record stamped
`now`), refresh the timestamp on access, then run the opportunistic sweep
(which may delete even the record just fetched — the caller keeps its own
reference, exactly like the Python alias). -/
def get_sess (now : Int) (sid : String) (st : Store) : SessRec × Store :=
  match lookupA sid st with
  | none =>
    let s : SessRec := { turns := 0, texts := [], ended := false, ts := now }
    (s, sweepIf now (st ++ [(sid, s)]))
  | some s0 =>
    let s := { s0 with ts := now }
    (s, sweepIf now (updateA sid s st))

/-- `data.get("session_id") or str(uuid.uuid4())`: the supplied identifier
unless it is absent or empty, else the freshly generated one. -/
def resolveSid (sidOpt : Option String) (fresh : String) : String :=
  match sidOpt with
  | some s => if s = "" then fresh else s
  | none => fresh

/-- The `/chat` route at store level: resolve the session id, fetch the
session, run the pipeline, and write the mutated record back — but only
when the sweep has not deleted the entry, since the Python code mutates an
object that is then unreachable from the table. -/
def chat (now : Int) (cfg : Config) (gen : String → String) (sidOpt : Option String)
    (fresh : String) (msg : String) (st : Store) : ChatResponse × Store :=
  let session_id := resolveSid sidOpt fresh
  let gs := get_sess now session_id st
  let out := chatSess cfg gen session_id msg gs.1
  let st2 := if (lookupA session_id gs.2).isSome then updateA session_id out.sess gs.2 else gs.2
  (out.resp, st2)

/-- The `/status` route at store level. -/
def status (now : Int) (cfg : Config) (sidOpt : Option String) (fresh : String)
    (st : Store) : StatusResponse × Store :=
  let session_id := resolveSid sidOpt fresh
  let gs := get_sess now session_id st
  (statusSess cfg session_id gs.1, gs.2)

/-! Concrete fixtures used by witnesses and counterexamples. -/

/-- A small concrete configuration snapshot used by witnesses. -/
def cfgW : Config := {
  crisis_keywords := ["bunuh diri"]
  crisis_msg := "CRISIS"
  faq := [("jam", "Jam buka 9-5")]
  faq_keys := [("jam", ["jam", "buka"])]
  psy_words := ["stres", "cemas"]
  suggestions := [("kecemasan", "Psikolog Klinis Dewasa")]
  closing := "CLOSING"
  clinic_name := some "CurhatKuy"
  max_turns := 5
  classify_confidence := 2/5
  reply_fallback := none
  patGreet := some (fun s => pyIn "halo" (pyLower s))
  patThanks := none
  patAck := none
  patWho := none
  patCan := none
  patAbout := none }

/-- A fresh session record. -/
def sess0 : SessRec := { turns := 0, texts := [], ended := false, ts := 0 }

/-- A generative oracle returning a fixed non-JSON string. -/
def genK : String → String := fun _ => "x"

/-- C2.  For every non-ended session and crisis-matching message, the
`/chat` call ends the session on that same call (whatever the turn
count), returns the templated crisis message with `handoff=true`,
`end=true` and `remaining=0`, and bypasses FAQ, meta, small talk, turn
counting and classification entirely (no transcript growth, no
generative call). -/
theorem c2_crisis_ends_session (cfg : Config) (gen : String → String) (sid msg : String)
    (s : SessRec) (h1 : s.ended = false) (h2 : is_crisis cfg (pyStrip msg) = true) :
    (chatSess cfg gen sid msg s).resp.reply = cfg.crisis_msg ∧
    (chatSess cfg gen sid msg s).resp.handoff = some true ∧
    (chatSess cfg gen sid msg s).resp.endFlag = true ∧
    (chatSess cfg gen sid msg s).resp.remaining = 0 ∧
    (chatSess cfg gen sid msg s).sess = { s with ended := true } ∧
    (chatSess cfg gen sid msg s).calls = [] ∧
    (chatSess cfg gen sid msg s).resp.category = none ∧
    (chatSess cfg gen sid msg s).resp.confidence = none := by
  simp [chatSess, h1, h2]

/-- Witness for C2: a concrete crisis message on a fresh session. -/
theorem c2_crisis_ends_session_witness :
    sess0.ended = false ∧ is_crisis cfgW (pyStrip "aku mau bunuh diri") = true ∧
    ((chatSess cfgW genK "sid" "aku mau bunuh diri" sess0).resp.reply = cfgW.crisis_msg ∧
     (chatSess cfgW genK "sid" "aku mau bunuh diri" sess0).resp.handoff = some true ∧
     (chatSess cfgW genK "sid" "aku mau bunuh diri" sess0).resp.endFlag = true ∧
     (chatSess cfgW genK "sid" "aku mau bunuh diri" sess0).resp.remaining = 0 ∧
     (chatSess cfgW genK "sid" "aku mau bunuh diri" sess0).sess = { sess0 with ended := true } ∧
     (chatSess cfgW genK "sid" "aku mau bunuh diri" sess0).calls = [] ∧
     (chatSess cfgW genK "sid" "aku mau bunuh diri" sess0).resp.category = none ∧
     (chatSess cfgW genK "sid" "aku mau bunuh diri" sess0).resp.confidence = none) :=
  ⟨rfl, by decide, c2_crisis_ends_session cfgW genK "sid" "aku mau bunuh diri" sess0 rfl (by decide)⟩

/-- C10.  Turn-limit termination is only checked on the substantive path:
an FAQ-matching message arriving at turn `max_turns - 1` pushes the
counter to `max_turns` and reports `remaining = 0`, yet the response has
`end=false` and the session stays active with its counter at the limit. -/
theorem c10_faq_reaches_limit_without_ending (cfg : Config) (gen : String → String)
    (sid msg : String) (s : SessRec) (h1 : s.ended = false)
    (h2 : is_crisis cfg (pyStrip msg) = false)
    (h3 : truthyStr (match_faq cfg (pyStrip msg)) = true)
    (h4 : s.turns + 1 = cfg.max_turns) :
    (chatSess cfg gen sid msg s).resp.endFlag = false ∧
    (chatSess cfg gen sid msg s).resp.remaining = 0 ∧
    (chatSess cfg gen sid msg s).sess.turns = cfg.max_turns ∧
    (chatSess cfg gen sid msg s).sess.ended = false := by
  simp [chatSess, h1, h2, h3, ← h4]

/-- Witness for C10: FAQ trigger word on the fourth turn of a five-turn
session. -/
theorem c10_faq_reaches_limit_without_ending_witness :
    ({ sess0 with turns := 4 } : SessRec).ended = false ∧
    is_crisis cfgW (pyStrip "jam buka?") = false ∧
    truthyStr (match_faq cfgW (pyStrip "jam buka?")) = true ∧
    ({ sess0 with turns := 4 } : SessRec).turns + 1 = cfgW.max_turns ∧
    ((chatSess cfgW genK "sid" "jam buka?" { sess0 with turns := 4 }).resp.endFlag = false ∧
     (chatSess cfgW genK "sid" "jam buka?" { sess0 with turns := 4 }).resp.remaining = 0 ∧
     (chatSess cfgW genK "sid" "jam buka?" { sess0 with turns := 4 }).sess.turns = cfgW.max_turns ∧
     (chatSess cfgW genK "sid" "jam buka?" { sess0 with turns := 4 }).sess.ended = false) :=
  ⟨rfl, by decide, by decide, rfl,
    c10_faq_reaches_limit_without_ending cfgW genK "sid" "jam buka?" { sess0 with turns := 4 }
      rfl (by decide) (by decide) rfl⟩

/-- A message the small-talk check rejects is nonempty, since
`is_smalltalk` accepts every message that strips to the empty string. -/
lemma ne_empty_of_not_smalltalk (cfg : Config) (m : String)
    (h : is_smalltalk cfg m = false) : m ≠ "" := by
  intro he
  subst he
  have hs : pyStrip "" = "" := rfl
  rw [is_smalltalk, hs] at h
  simp at h

/-- C5.  Frame effects of the non-substantive handlers: meta and
small-talk replies leave the session record untouched; an FAQ-handled or
substantive message adds exactly one turn and appends the stripped
message to the transcript; and neither the FAQ, meta nor small-talk path
ever flips `ended` to true. -/
theorem c5_frame_effects (cfg : Config) (gen : String → String) (sid msg : String)
    (s : SessRec) (h0 : s.ended = false) (hc : is_crisis cfg (pyStrip msg) = false) :
    (truthyStr (match_faq cfg (pyStrip msg)) = false →
      (match_meta_query cfg (pyStrip msg)).isSome = true →
      (chatSess cfg gen sid msg s).sess = s ∧
      (chatSess cfg gen sid msg s).resp.endFlag = false) ∧
    (truthyStr (match_faq cfg (pyStrip msg)) = false →
      match_meta_query cfg (pyStrip msg) = none →
      is_smalltalk cfg (pyStrip msg) = true →
      (chatSess cfg gen sid msg s).sess = s ∧
      (chatSess cfg gen sid msg s).resp.endFlag = false) ∧
    (truthyStr (match_faq cfg (pyStrip msg)) = true →
      (chatSess cfg gen sid msg s).sess.turns = s.turns + 1 ∧
      (chatSess cfg gen sid msg s).sess.texts = s.texts ++ [pyStrip msg] ∧
      (chatSess cfg gen sid msg s).sess.ended = false ∧
      (chatSess cfg gen sid msg s).resp.endFlag = false) ∧
    (truthyStr (match_faq cfg (pyStrip msg)) = false →
      match_meta_query cfg (pyStrip msg) = none →
      is_smalltalk cfg (pyStrip msg) = false →
      (chatSess cfg gen sid msg s).sess.turns = s.turns + 1 ∧
      (chatSess cfg gen sid msg s).sess.texts = s.texts ++ [pyStrip msg]) := by
  refine ⟨?_, ?_, ?_, ?_⟩
  · intro hf hm
    obtain ⟨m, hm⟩ := Option.isSome_iff_exists.mp hm
    simp [chatSess, h0, hc, hf, hm]
  · intro hf hm hs
    simp [chatSess, h0, hc, hf, hm, hs]
  · intro hf
    simp [chatSess, h0, hc, hf]
  · intro hf hm hs
    have hu : pyStrip (pyStrip msg) ≠ "" := by
      intro he
      have h2 : is_smalltalk cfg (pyStrip msg) = true := by
        rw [is_smalltalk, he]
        simp
      rw [hs] at h2
      exact Bool.false_ne_true h2
    have hu2 : pyStrip msg ≠ "" := ne_empty_of_not_smalltalk cfg (pyStrip msg) hs
    simp only [chatSess, h0, hc, hf, hm, hs]
    simp only [Bool.false_eq_true, if_false]
    rw [substantiveStep]
    simp only [hu2, ne_eq, not_false_eq_true, if_true]
    split <;> simp [terminalStep]

/-- Witness for C5: the small-talk scenario "halo" leaves a fresh session
untouched. -/
theorem c5_frame_effects_witness :
    sess0.ended = false ∧ is_crisis cfgW (pyStrip "halo") = false ∧
    truthyStr (match_faq cfgW (pyStrip "halo")) = false ∧
    match_meta_query cfgW (pyStrip "halo") = none ∧
    is_smalltalk cfgW (pyStrip "halo") = true ∧
    ((chatSess cfgW genK "sid" "halo" sess0).sess = sess0 ∧
     (chatSess cfgW genK "sid" "halo" sess0).resp.endFlag = false) :=
  ⟨rfl, by decide, by decide, by decide, by decide,
    (c5_frame_effects cfgW genK "sid" "halo" sess0 rfl (by decide)).2.1
      (by decide) (by decide) (by decide)⟩

/-- On the substantive path the reported `remaining` follows the
piecewise formula over the post-call turn counter. -/
lemma substantiveStep_remaining (cfg : Config) (gen : String → String) (sid u : String)
    (s1 : SessRec) :
    ((substantiveStep cfg gen sid u s1).resp.remaining : Int) =
      (if (substantiveStep cfg gen sid u s1).resp.endFlag = true then 0
       else max 0 ((cfg.max_turns : Int) - ((substantiveStep cfg gen sid u s1).sess.turns : Int))) := by
  rw [substantiveStep]
  by_cases hu : u = ""
  · simp only [hu, ne_eq, not_true_eq_false, if_false]
    split
    · simp [terminalStep]
      split <;> omega
    · simp
      omega
  · simp only [hu, ne_eq, not_false_eq_true, if_true]
    split
    · simp [terminalStep]
      split <;> omega
    · simp
      omega

/-- In every branch of the pipeline, the reported `remaining` is zero when
the response carries `end=true` and `max(0, max_turns - turns)` over the
post-call turn counter otherwise. -/
lemma chatSess_remaining (cfg : Config) (gen : String → String) (sid msg : String)
    (s : SessRec) :
    ((chatSess cfg gen sid msg s).resp.remaining : Int) =
      (if (chatSess cfg gen sid msg s).resp.endFlag = true then 0
       else max 0 ((cfg.max_turns : Int) - ((chatSess cfg gen sid msg s).sess.turns : Int))) := by
  rw [chatSess]
  by_cases h1 : s.ended
  · simp [h1]
  · simp only [h1, Bool.false_eq_true, if_false]
    by_cases h2 : is_crisis cfg (pyStrip msg)
    · simp [h2]
    · simp only [h2, Bool.false_eq_true, if_false]
      by_cases h3 : truthyStr (match_faq cfg (pyStrip msg))
      · simp only [h3, if_true]
        simp
        omega
      · simp only [h3, Bool.false_eq_true, if_false]
        cases hm : match_meta_query cfg (pyStrip msg) with
        | some m =>
          simp
          omega
        | none =>
          by_cases h5 : is_smalltalk cfg (pyStrip msg)
          · simp [h5]
            omega
          · simp only [h5, Bool.false_eq_true, if_false]
            exact substantiveStep_remaining cfg gen sid (pyStrip msg) s

/-- Every branch of the pipeline echoes the resolved session identifier. -/
lemma chatSess_session_id (cfg : Config) (gen : String → String) (sid msg : String)
    (s : SessRec) : (chatSess cfg gen sid msg s).resp.session_id = sid := by
  rw [chatSess]
  by_cases h1 : s.ended
  · simp [h1]
  · simp only [h1, Bool.false_eq_true, if_false]
    by_cases h2 : is_crisis cfg (pyStrip msg)
    · simp [h2]
    · simp only [h2, Bool.false_eq_true, if_false]
      by_cases h3 : truthyStr (match_faq cfg (pyStrip msg))
      · simp [h3]
      · simp only [h3, Bool.false_eq_true, if_false]
        cases hm : match_meta_query cfg (pyStrip msg) with
        | some m => simp
        | none =>
          by_cases h5 : is_smalltalk cfg (pyStrip msg)
          · simp [h5]
          · simp only [h5, Bool.false_eq_true, if_false]
            rw [substantiveStep]
            split <;> split <;> rfl

/-- Counterexample to C3 as stated: a crisis message on turn one reports
`remaining = 0` although `max(0, max_turns - turns) = 5` for the
resulting session, so `remaining` does not always equal
`max(0, max_turns - turns)`. -/
theorem c3_counterexample :
    (chatSess cfgW genK "sid" "bunuh diri" sess0).resp.remaining = 0 ∧
    max 0 ((cfgW.max_turns : Int) - ((chatSess cfgW genK "sid" "bunuh diri" sess0).sess.turns : Int)) = 5 := by
  constructor
  · rfl
  · decide

/-- C3 (amended).  On `/chat` and `/status` the reported `remaining`
equals `max(0, max_turns - turns)` over the post-call turn counter for
non-ended responses and is `0` whenever the response reports `end=true`
(on a crisis or session-end call the two differ, `remaining` being
forced to zero); the response always carries the supplied session
identifier, a fresh one standing in when none (or an empty one) was
supplied. -/
theorem c3_remaining_and_session_id (cfg : Config) (gen : String → String)
    (sidOpt : Option String) (fresh sid msg : String) (s : SessRec) (now : Int) (st : Store) :
    ((chatSess cfg gen sid msg s).resp.endFlag = true →
      (chatSess cfg gen sid msg s).resp.remaining = 0) ∧
    ((chatSess cfg gen sid msg s).resp.endFlag = false →
      ((chatSess cfg gen sid msg s).resp.remaining : Int) =
        max 0 ((cfg.max_turns : Int) - ((chatSess cfg gen sid msg s).sess.turns : Int))) ∧
    (statusSess cfg sid s).endFlag = s.ended ∧
    (s.ended = true → (statusSess cfg sid s).remaining = 0) ∧
    (s.ended = false →
      ((statusSess cfg sid s).remaining : Int) =
        max 0 ((cfg.max_turns : Int) - (s.turns : Int))) ∧
    (chat now cfg gen sidOpt fresh msg st).1.session_id = resolveSid sidOpt fresh ∧
    (status now cfg sidOpt fresh st).1.session_id = resolveSid sidOpt fresh := by
  have hr := chatSess_remaining cfg gen sid msg s
  refine ⟨?_, ?_, rfl, ?_, ?_, ?_, rfl⟩
  · intro he
    rw [he] at hr
    simp at hr
    exact_mod_cast hr
  · intro he
    rw [he] at hr
    simpa using hr
  · intro he
    simp [statusSess, he]
  · intro he
    simp [statusSess, he]
    omega
  · rw [chat]
    exact chatSess_session_id cfg gen (resolveSid sidOpt fresh) msg (get_sess now (resolveSid sidOpt fresh) st).1

/-- Witness for C3 (amended): concrete ended and non-ended calls. -/
theorem c3_remaining_and_session_id_witness :
    (chatSess cfgW genK "sid" "bunuh diri" sess0).resp.remaining = 0 ∧
    ((statusSess cfgW "sid" sess0).remaining : Int) =
      max 0 ((cfgW.max_turns : Int) - (sess0.turns : Int)) ∧
    (chat 0 cfgW genK (some "sid") "fresh" "bunuh diri" []).1.session_id =
      resolveSid (some "sid") "fresh" ∧
    (status 0 cfgW (some "sid") "fresh" []).1.session_id = resolveSid (some "sid") "fresh" := by
  have h := c3_remaining_and_session_id cfgW genK (some "sid") "fresh" "sid" "bunuh diri" sess0 0 []
  exact ⟨h.1 rfl, h.2.2.2.2.1 rfl, h.2.2.2.2.2.1, h.2.2.2.2.2.2⟩

/-- Looking up a key after an in-place update sees the new value exactly
when the key was present. -/
lemma lookupA_updateA (k : String) (v : SessRec) (l : Store) :
    lookupA k (updateA k v l) = (lookupA k l).map (fun _ => v) := by
  induction l with
  | nil => rfl
  | cons hd tl ih =>
    obtain ⟨k2, v2⟩ := hd
    by_cases hk : k2 = k
    · simp [updateA, lookupA, hk]
    · simp [updateA, lookupA, hk, ih]

/-- C1 (amended).  While an ended session remains in the store, every
`/chat` call on its identifier returns the fixed "session ended" reply
with `remaining=0` and `end=true`, and the only mutation is the
last-activity timestamp refresh; the opportunistic sweep may however
delete the ended record during the very same call, and a later reference
to a deleted identifier recreates the session empty and active, from
which point the ended reply no longer applies. -/
theorem c1_ended_reply_until_sweep (now : Int) (cfg : Config) (gen : String → String)
    (sidOpt : Option String) (fresh msg : String) (st : Store) (s : SessRec)
    (hlk : lookupA (resolveSid sidOpt fresh) st = some s) (he : s.ended = true) :
    (chat now cfg gen sidOpt fresh msg st).1.reply = ended_reply ∧
    (chat now cfg gen sidOpt fresh msg st).1.endFlag = true ∧
    (chat now cfg gen sidOpt fresh msg st).1.remaining = 0 ∧
    (lookupA (resolveSid sidOpt fresh) (chat now cfg gen sidOpt fresh msg st).2 = none ∨
     lookupA (resolveSid sidOpt fresh) (chat now cfg gen sidOpt fresh msg st).2 =
       some { s with ts := now }) ∧
    (∀ st2 : Store, lookupA (resolveSid sidOpt fresh) st2 = none →
      (get_sess now (resolveSid sidOpt fresh) st2).1 =
        { turns := 0, texts := [], ended := false, ts := now }) := by
  have hend : ({ s with ts := now } : SessRec).ended = true := he
  refine ⟨?_, ?_, ?_, ?_, ?_⟩
  · simp [chat, get_sess, hlk, chatSess, hend]
  · simp [chat, get_sess, hlk, chatSess, hend]
  · simp [chat, get_sess, hlk, chatSess, hend]
  · simp only [chat, get_sess, hlk, chatSess, hend, if_true]
    cases hL : lookupA (resolveSid sidOpt fresh)
        (sweepIf now (updateA (resolveSid sidOpt fresh) { s with ts := now } st)) with
    | none => left; simp [hL]
    | some x => right; simp [hL, lookupA_updateA]
  · intro st2 h0
    simp [get_sess, h0]

/-- Witness for C1 (amended): an ended session in a singleton store. -/
theorem c1_ended_reply_until_sweep_witness :
    lookupA (resolveSid (some "s") "f") [("s", { turns := 2, texts := ["a"], ended := true, ts := 0 })] =
      some { turns := 2, texts := ["a"], ended := true, ts := 0 } ∧
    ({ turns := 2, texts := ["a"], ended := true, ts := 0 } : SessRec).ended = true ∧
    ((chat 7 cfgW genK (some "s") "f" "halo"
        [("s", { turns := 2, texts := ["a"], ended := true, ts := 0 })]).1.reply = ended_reply ∧
     (chat 7 cfgW genK (some "s") "f" "halo"
        [("s", { turns := 2, texts := ["a"], ended := true, ts := 0 })]).1.endFlag = true ∧
     (chat 7 cfgW genK (some "s") "f" "halo"
        [("s", { turns := 2, texts := ["a"], ended := true, ts := 0 })]).1.remaining = 0 ∧
     (lookupA (resolveSid (some "s") "f")
        (chat 7 cfgW genK (some "s") "f" "halo"
          [("s", { turns := 2, texts := ["a"], ended := true, ts := 0 })]).2 = none ∨
      lookupA (resolveSid (some "s") "f")
        (chat 7 cfgW genK (some "s") "f" "halo"
          [("s", { turns := 2, texts := ["a"], ended := true, ts := 0 })]).2 =
        some { turns := 2, texts := ["a"], ended := true, ts := 7 }) ∧
     (get_sess 7 (resolveSid (some "s") "f") []).1 =
       { turns := 0, texts := [], ended := false, ts := 7 }) := by
  have h := c1_ended_reply_until_sweep 7 cfgW genK (some "s") "f" "halo"
    [("s", { turns := 2, texts := ["a"], ended := true, ts := 0 })]
    { turns := 2, texts := ["a"], ended := true, ts := 0 } rfl rfl
  exact ⟨rfl, rfl, h.1, h.2.1, h.2.2.1, h.2.2.2.1, h.2.2.2.2 [] rfl⟩

/-- A store of 99 fresh filler sessions. -/
def c1Others : Store := (List.range 99).map (fun i => ("o" ++ toString i, sess0))

/-- A 100-entry store whose session "s" has ended. -/
def c1Store : Store :=
  ("s", { turns := 2, texts := ["a"], ended := true, ts := 0 }) :: c1Others

/-- The store left by a first `/chat` call on the ended session "s": the
access makes the table size a multiple of 100, so the sweep fires and
deletes the ended record. -/
def c1AfterFirst : Store := (chat 0 cfgW genK (some "s") "f" "halo" c1Store).2

set_option maxRecDepth 100000 in
/-- Counterexample to C1 as stated: with 100 sessions in the store, the
first call on the ended session "s" still returns the ended reply, but
the sweep it triggers deletes the record, and the second call with the
same identifier is handled as a fresh session (here: the small-talk
reply with `end=false`), not the fixed "session ended" reply. -/
theorem c1_counterexample :
    (chat 0 cfgW genK (some "s") "f" "halo" c1Store).1.endFlag = true ∧
    lookupA "s" c1AfterFirst = none ∧
    (chat 0 cfgW genK (some "s") "f" "halo" c1AfterFirst).1.endFlag = false ∧
    (chat 0 cfgW genK (some "s") "f" "halo" c1AfterFirst).1.reply ≠ ended_reply := by
  refine ⟨by decide, by decide, by decide, by decide⟩

/-- Under the hypotheses that every earlier rule declined and the
incremented turn counter reaches `max_turns`, the pipeline lands in the
turn-limit termination step with the substantive reply, call list and
incremented session. -/
lemma chatSess_terminal (cfg : Config) (gen : String → String) (sid msg : String)
    (s : SessRec) (h0 : s.ended = false) (hc : is_crisis cfg (pyStrip msg) = false)
    (hf : truthyStr (match_faq cfg (pyStrip msg)) = false)
    (hm : match_meta_query cfg (pyStrip msg) = none)
    (hs : is_smalltalk cfg (pyStrip msg) = false)
    (ht : cfg.max_turns ≤ s.turns + 1) :
    chatSess cfg gen sid msg s =
      terminalStep cfg gen sid
        (if !is_psychology_domain cfg (s.texts ++ [pyStrip msg]) then redirect_reply
         else pyOr (gen (pyStrip msg)) (cfg.reply_fallback.getD default_fallback))
        (if !is_psychology_domain cfg (s.texts ++ [pyStrip msg]) then ([] : List String)
         else [pyStrip msg])
        { s with turns := s.turns + 1, texts := s.texts ++ [pyStrip msg] } := by
  have hu : pyStrip msg ≠ "" := ne_empty_of_not_smalltalk cfg (pyStrip msg) hs
  simp only [chatSess, h0, hc, hf, hm, hs, Bool.false_eq_true, if_false]
  rw [substantiveStep]
  simp only [hu, ne_eq, not_false_eq_true, if_true]
  simp [ht, h0]

/-- Shape of the turn-limit termination step when the parsed category is
hashable (the only case in which Python completes the membership test):
session ended, `end=true`, `remaining=0`, the classification prompt
appended to the call list, the category echoed from the parsed output
(with the sentinel default), the confidence null or rounded, the reply
extended by either the specialist recommendation plus closing or the
closing alone according to `suggest_ok`, and no exception raised. -/
lemma terminalStep_spec (cfg : Config) (gen : String → String) (sid reply : String)
    (calls1 : List String) (sess1 : SessRec)
    (hh : jsonHashable (terminal_category (parse_json_obj (pyOr
      (gen (cls_prompt (cfg.suggestions.map (fun p => p.1))
        (String.intercalate " " (pyTailSlice cfg.max_turns sess1.texts)))) "\x7b\x7d"))) = true) :
    (terminalStep cfg gen sid reply calls1 sess1).sess = { sess1 with ended := true } ∧
    (terminalStep cfg gen sid reply calls1 sess1).resp.endFlag = true ∧
    (terminalStep cfg gen sid reply calls1 sess1).resp.remaining = 0 ∧
    (terminalStep cfg gen sid reply calls1 sess1).calls =
      calls1 ++ [cls_prompt (cfg.suggestions.map (fun p => p.1))
        (String.intercalate " " (pyTailSlice cfg.max_turns sess1.texts))] ∧
    (terminalStep cfg gen sid reply calls1 sess1).resp.category =
      some (terminal_category (parse_json_obj (pyOr
        (gen (cls_prompt (cfg.suggestions.map (fun p => p.1))
          (String.intercalate " " (pyTailSlice cfg.max_turns sess1.texts)))) "\x7b\x7d"))) ∧
    (terminalStep cfg gen sid reply calls1 sess1).resp.confidence =
      some (match terminal_confidence (parse_json_obj (pyOr
        (gen (cls_prompt (cfg.suggestions.map (fun p => p.1))
          (String.intercalate " " (pyTailSlice cfg.max_turns sess1.texts)))) "\x7b\x7d")) with
        | some q => Json.num (round3 q)
        | none => Json.null) ∧
    (terminalStep cfg gen sid reply calls1 sess1).resp.reply =
      (if suggest_ok cfg
          (terminal_category (parse_json_obj (pyOr
            (gen (cls_prompt (cfg.suggestions.map (fun p => p.1))
              (String.intercalate " " (pyTailSlice cfg.max_turns sess1.texts)))) "\x7b\x7d")))
          (terminal_confidence (parse_json_obj (pyOr
            (gen (cls_prompt (cfg.suggestions.map (fun p => p.1))
              (String.intercalate " " (pyTailSlice cfg.max_turns sess1.texts)))) "\x7b\x7d"))) then
        suggestion_reply reply
          (sugLabel cfg (terminal_category (parse_json_obj (pyOr
            (gen (cls_prompt (cfg.suggestions.map (fun p => p.1))
              (String.intercalate " " (pyTailSlice cfg.max_turns sess1.texts)))) "\x7b\x7d"))))
          (pyOr cfg.closing (default_closing cfg.max_turns))
       else reply ++ "\n\n" ++ pyOr cfg.closing (default_closing cfg.max_turns)) ∧
    (terminalStep cfg gen sid reply calls1 sess1).raised = false := by
  rw [terminalStep]
  refine ⟨by simp [hh], hh, by simp [hh], rfl, by simp [hh], by simp [hh], by simp [hh],
    by simp [hh]⟩

/-- Shape of the turn-limit termination step when the parsed category is a
list or dict: the membership test raises `TypeError` before the session
is marked ended, so the request aborts with a server error, the session
record keeps the counted turn and stays active, and the classification
call was still made. -/
lemma terminalStep_crash (cfg : Config) (gen : String → String) (sid reply : String)
    (calls1 : List String) (sess1 : SessRec)
    (hh : jsonHashable (terminal_category (parse_json_obj (pyOr
      (gen (cls_prompt (cfg.suggestions.map (fun p => p.1))
        (String.intercalate " " (pyTailSlice cfg.max_turns sess1.texts)))) "\x7b\x7d"))) = false) :
    (terminalStep cfg gen sid reply calls1 sess1).raised = true ∧
    (terminalStep cfg gen sid reply calls1 sess1).sess = sess1 ∧
    (terminalStep cfg gen sid reply calls1 sess1).calls =
      calls1 ++ [cls_prompt (cfg.suggestions.map (fun p => p.1))
        (String.intercalate " " (pyTailSlice cfg.max_turns sess1.texts))] := by
  rw [terminalStep]
  refine ⟨by simp [hh], ?_, rfl⟩
  simp [hh]

/-- Whether a JSON value is a string. -/
def jsonIsStr : Json → Bool
  | Json.str _ => true
  | _ => false

/-- A single-turn configuration for terminal-turn scenarios. -/
def cfg1 : Config := { cfgW with max_turns := 1 }

/-- A classifier oracle answering a JSON object whose category is `null`. -/
def genNull : String → String := fun _ => "\x7b\"category\": null\x7d"

/-- Counterexample to C4 as stated: when the classifier output is
`\x7b"category": null\x7d`, `dataj.get("category", "non_psikologi")`
returns the explicit `null`, so the terminal response carries a null —
not a non-null string — category. -/
theorem c4_counterexample :
    (chatSess cfg1 genNull "sid" "aku stres" sess0).resp.endFlag = true ∧
    (chatSess cfg1 genNull "sid" "aku stres" sess0).resp.category = some Json.null ∧
    ((chatSess cfg1 genNull "sid" "aku stres" sess0).resp.category.map jsonIsStr) = some false :=
  ⟨rfl, rfl, rfl⟩

/-- C4 (amended).  When a substantive message brings the turn count to
`max_turns`, the router counts the turn and issues the classification
call over the joined last `max_turns` transcript entries.  When the
parsed category value is hashable (absent, null, boolean, number or
string), the session is marked ended and the response has `end=true`,
`remaining=0`, a `category` key equal to the parsed value with the
sentinel string `"non_psikologi"` standing in only when the field is
absent (hence a non-null string unless the classifier itself emits a
null or non-string scalar), a `confidence` key that is null or a number
rounded to 3 decimals, and a reply extended by the specialist
recommendation plus closing exactly when the category is a configured
suggestion key and the confidence is absent or at least the threshold,
else by the closing alone.  When the parsed category is a JSON array or
object, however, the membership test `category in suggestions` raises
`TypeError` before the session is marked ended: the request aborts with
a server error and the session is left active with its counted turn. -/
theorem c4_terminal_classification (cfg : Config) (gen : String → String) (sid msg : String)
    (s : SessRec) (h0 : s.ended = false) (hc : is_crisis cfg (pyStrip msg) = false)
    (hf : truthyStr (match_faq cfg (pyStrip msg)) = false)
    (hm : match_meta_query cfg (pyStrip msg) = none)
    (hs : is_smalltalk cfg (pyStrip msg) = false)
    (ht : s.turns + 1 = cfg.max_turns) :
    (chatSess cfg gen sid msg s).sess.turns = cfg.max_turns ∧
    (∃ calls1, (chatSess cfg gen sid msg s).calls =
      calls1 ++ [cls_prompt (cfg.suggestions.map (fun p => p.1))
        (String.intercalate " " (pyTailSlice cfg.max_turns (s.texts ++ [pyStrip msg])))]) ∧
    (jsonHashable (terminal_category (parse_json_obj (pyOr
        (gen (cls_prompt (cfg.suggestions.map (fun p => p.1))
          (String.intercalate " " (pyTailSlice cfg.max_turns (s.texts ++ [pyStrip msg]))))) "\x7b\x7d"))) = true →
      (chatSess cfg gen sid msg s).sess.ended = true ∧
      (chatSess cfg gen sid msg s).resp.endFlag = true ∧
      (chatSess cfg gen sid msg s).resp.remaining = 0 ∧
      (chatSess cfg gen sid msg s).raised = false ∧
      (chatSess cfg gen sid msg s).resp.category =
        some (terminal_category (parse_json_obj (pyOr
          (gen (cls_prompt (cfg.suggestions.map (fun p => p.1))
            (String.intercalate " " (pyTailSlice cfg.max_turns (s.texts ++ [pyStrip msg]))))) "\x7b\x7d"))) ∧
      (jGet (parse_json_obj (pyOr
          (gen (cls_prompt (cfg.suggestions.map (fun p => p.1))
            (String.intercalate " " (pyTailSlice cfg.max_turns (s.texts ++ [pyStrip msg]))))) "\x7b\x7d"))
          "category" = none →
        (chatSess cfg gen sid msg s).resp.category = some (Json.str "non_psikologi")) ∧
      (∃ co, (chatSess cfg gen sid msg s).resp.confidence = some co ∧
        (co = Json.null ∨ ∃ q, co = Json.num (round3 q))) ∧
      (suggest_ok cfg
          (terminal_category (parse_json_obj (pyOr
            (gen (cls_prompt (cfg.suggestions.map (fun p => p.1))
              (String.intercalate " " (pyTailSlice cfg.max_turns (s.texts ++ [pyStrip msg]))))) "\x7b\x7d")))
          (terminal_confidence (parse_json_obj (pyOr
            (gen (cls_prompt (cfg.suggestions.map (fun p => p.1))
              (String.intercalate " " (pyTailSlice cfg.max_turns (s.texts ++ [pyStrip msg]))))) "\x7b\x7d"))) = true →
        ∃ base, (chatSess cfg gen sid msg s).resp.reply =
          suggestion_reply base
            (sugLabel cfg (terminal_category (parse_json_obj (pyOr
              (gen (cls_prompt (cfg.suggestions.map (fun p => p.1))
                (String.intercalate " " (pyTailSlice cfg.max_turns (s.texts ++ [pyStrip msg]))))) "\x7b\x7d"))))
            (pyOr cfg.closing (default_closing cfg.max_turns))) ∧
      (suggest_ok cfg
          (terminal_category (parse_json_obj (pyOr
            (gen (cls_prompt (cfg.suggestions.map (fun p => p.1))
              (String.intercalate " " (pyTailSlice cfg.max_turns (s.texts ++ [pyStrip msg]))))) "\x7b\x7d")))
          (terminal_confidence (parse_json_obj (pyOr
            (gen (cls_prompt (cfg.suggestions.map (fun p => p.1))
              (String.intercalate " " (pyTailSlice cfg.max_turns (s.texts ++ [pyStrip msg]))))) "\x7b\x7d"))) = false →
        ∃ base, (chatSess cfg gen sid msg s).resp.reply =
          base ++ "\n\n" ++ pyOr cfg.closing (default_closing cfg.max_turns))) ∧
    (jsonHashable (terminal_category (parse_json_obj (pyOr
        (gen (cls_prompt (cfg.suggestions.map (fun p => p.1))
          (String.intercalate " " (pyTailSlice cfg.max_turns (s.texts ++ [pyStrip msg]))))) "\x7b\x7d"))) = false →
      (chatSess cfg gen sid msg s).raised = true ∧
      (chatSess cfg gen sid msg s).sess.ended = false ∧
      (chatSess cfg gen sid msg s).resp.category = none) := by
  have hstep := chatSess_terminal cfg gen sid msg s h0 hc hf hm hs (le_of_eq ht.symm)
  rw [hstep]
  refine ⟨ht, ⟨_, rfl⟩, ?_, ?_⟩
  · intro hh
    obtain ⟨e1, e2, e3, e4, e5, e6, e7, e8⟩ := terminalStep_spec cfg gen sid
      (if !is_psychology_domain cfg (s.texts ++ [pyStrip msg]) then redirect_reply
       else pyOr (gen (pyStrip msg)) (cfg.reply_fallback.getD default_fallback))
      (if !is_psychology_domain cfg (s.texts ++ [pyStrip msg]) then ([] : List String)
       else [pyStrip msg])
      { s with turns := s.turns + 1, texts := s.texts ++ [pyStrip msg] } hh
    refine ⟨by rw [e1], e2, e3, e8, e5, ?_, ?_, ?_, ?_⟩
    · intro hnone
      rw [e5]
      simp [terminal_category, hnone]
    · rw [e6]
      cases hcf : terminal_confidence (parse_json_obj (pyOr
          (gen (cls_prompt (cfg.suggestions.map (fun p => p.1))
            (String.intercalate " " (pyTailSlice cfg.max_turns (s.texts ++ [pyStrip msg]))))) "\x7b\x7d")) with
      | none => exact ⟨Json.null, rfl, Or.inl rfl⟩
      | some q => exact ⟨Json.num (round3 q), rfl, Or.inr ⟨q, rfl⟩⟩
    · intro hok
      rw [e7]
      simp only [hok, if_true]
      exact ⟨_, rfl⟩
    · intro hok
      rw [e7]
      simp only [hok, Bool.false_eq_true, if_false]
      exact ⟨_, rfl⟩
  · intro hh
    obtain ⟨f1, f2, f3⟩ := terminalStep_crash cfg gen sid
      (if !is_psychology_domain cfg (s.texts ++ [pyStrip msg]) then redirect_reply
       else pyOr (gen (pyStrip msg)) (cfg.reply_fallback.getD default_fallback))
      (if !is_psychology_domain cfg (s.texts ++ [pyStrip msg]) then ([] : List String)
       else [pyStrip msg])
      { s with turns := s.turns + 1, texts := s.texts ++ [pyStrip msg] } hh
    refine ⟨f1, ?_, ?_⟩
    · rw [f2]
      exact h0
    · rw [terminalStep]
      simp [hh]

/-- A classifier oracle answering a well-formed classification object. -/
def genGood : String → String := fun _ => "\x7b\"category\": \"kecemasan\", \"confidence\": 1\x7d"

/-- A classifier oracle answering a list-valued category, on which Python
raises `TypeError` in the membership test. -/
def genArr : String → String := fun _ => "\x7b\"category\": []\x7d"

/-- Witness for C4 (amended): a substantive domain message on the last
turn of a one-turn session, with a well-formed string category (normal
termination) and with a list category (the request raises, the session
stays active). -/
theorem c4_terminal_classification_witness :
    sess0.ended = false ∧
    is_crisis cfg1 (pyStrip "aku stres") = false ∧
    truthyStr (match_faq cfg1 (pyStrip "aku stres")) = false ∧
    match_meta_query cfg1 (pyStrip "aku stres") = none ∧
    is_smalltalk cfg1 (pyStrip "aku stres") = false ∧
    sess0.turns + 1 = cfg1.max_turns ∧
    ((chatSess cfg1 genGood "sid" "aku stres" sess0).sess.ended = true ∧
     (chatSess cfg1 genGood "sid" "aku stres" sess0).resp.endFlag = true ∧
     (chatSess cfg1 genGood "sid" "aku stres" sess0).resp.remaining = 0 ∧
     (chatSess cfg1 genGood "sid" "aku stres" sess0).raised = false) ∧
    ((chatSess cfg1 genArr "sid" "aku stres" sess0).raised = true ∧
     (chatSess cfg1 genArr "sid" "aku stres" sess0).sess.ended = false ∧
     (chatSess cfg1 genArr "sid" "aku stres" sess0).sess.turns = cfg1.max_turns) := by
  have hgood := c4_terminal_classification cfg1 genGood "sid" "aku stres" sess0 rfl
    (by decide) (by decide) (by decide) (by decide) rfl
  have harr := c4_terminal_classification cfg1 genArr "sid" "aku stres" sess0 rfl
    (by decide) (by decide) (by decide) (by decide) rfl
  have hg := hgood.2.2.1 (by decide)
  have ha := harr.2.2.2 (by decide)
  exact ⟨rfl, by decide, by decide, by decide, by decide, rfl,
    ⟨hg.1, hg.2.1, hg.2.2.1, hg.2.2.2.1⟩, ⟨ha.1, ha.2.1, harr.1⟩⟩

/-- Counterexample to C6 as stated: with `max_turns = 1`, a substantive
message outside the domain keywords makes the turn-limit termination step
run on the very call the domain gate fired on — the session ends, the
classification call is made, and the returned reply is no longer the
fixed redirect text. -/
theorem c6_counterexample :
    is_psychology_domain cfg1 (sess0.texts ++ [pyStrip "beli pulsa"]) = false ∧
    (chatSess cfg1 genK "sid" "beli pulsa" sess0).resp.endFlag = true ∧
    (chatSess cfg1 genK "sid" "beli pulsa" sess0).resp.reply ≠ redirect_reply ∧
    (chatSess cfg1 genK "sid" "beli pulsa" sess0).calls ≠ [] :=
  ⟨rfl, rfl, by decide, by decide⟩

/-- C6 (amended).  When the domain-relevance gate fires after the
substantive turn is counted, the generative reply call is skipped and the
reply body is the fixed redirect text; when the counted turn stays below
`max_turns` that redirect is returned as is with `end=false` and no
collaborator call at all, but the turn-limit termination step is still
evaluated on the same call, so at the limit the classification call is
still made: for a hashable parsed category the session ends and the
redirect text is only a prefix of the final reply, while a list or dict
category makes the membership test raise `TypeError`, the request
aborting with a server error and the session left active. -/
theorem c6_domain_gate (cfg : Config) (gen : String → String) (sid msg : String)
    (s : SessRec) (h0 : s.ended = false) (hc : is_crisis cfg (pyStrip msg) = false)
    (hf : truthyStr (match_faq cfg (pyStrip msg)) = false)
    (hm : match_meta_query cfg (pyStrip msg) = none)
    (hs : is_smalltalk cfg (pyStrip msg) = false)
    (hd : is_psychology_domain cfg (s.texts ++ [pyStrip msg]) = false) :
    (s.turns + 1 < cfg.max_turns →
      (chatSess cfg gen sid msg s).resp.reply = redirect_reply ∧
      (chatSess cfg gen sid msg s).resp.endFlag = false ∧
      (chatSess cfg gen sid msg s).calls = [] ∧
      (chatSess cfg gen sid msg s).raised = false ∧
      (chatSess cfg gen sid msg s).sess.turns = s.turns + 1) ∧
    (cfg.max_turns ≤ s.turns + 1 →
      (chatSess cfg gen sid msg s).calls =
        [cls_prompt (cfg.suggestions.map (fun p => p.1))
          (String.intercalate " " (pyTailSlice cfg.max_turns (s.texts ++ [pyStrip msg])))] ∧
      (jsonHashable (terminal_category (parse_json_obj (pyOr
          (gen (cls_prompt (cfg.suggestions.map (fun p => p.1))
            (String.intercalate " " (pyTailSlice cfg.max_turns (s.texts ++ [pyStrip msg]))))) "\x7b\x7d"))) = true →
        (chatSess cfg gen sid msg s).resp.endFlag = true ∧
        (chatSess cfg gen sid msg s).sess.ended = true ∧
        (chatSess cfg gen sid msg s).raised = false ∧
        (∃ t, (chatSess cfg gen sid msg s).resp.reply = redirect_reply ++ t)) ∧
      (jsonHashable (terminal_category (parse_json_obj (pyOr
          (gen (cls_prompt (cfg.suggestions.map (fun p => p.1))
            (String.intercalate " " (pyTailSlice cfg.max_turns (s.texts ++ [pyStrip msg]))))) "\x7b\x7d"))) = false →
        (chatSess cfg gen sid msg s).raised = true ∧
        (chatSess cfg gen sid msg s).sess.ended = false)) := by
  have hu : pyStrip msg ≠ "" := ne_empty_of_not_smalltalk cfg (pyStrip msg) hs
  constructor
  · intro hlt
    have hnt : ¬ (cfg.max_turns ≤ s.turns + 1) := by omega
    simp only [chatSess, h0, hc, hf, hm, hs, Bool.false_eq_true, if_false]
    rw [substantiveStep]
    simp only [hu, ne_eq, not_false_eq_true, if_true]
    simp [hnt, hd]
  · intro hge
    have hstep := chatSess_terminal cfg gen sid msg s h0 hc hf hm hs hge
    rw [hstep]
    refine ⟨?_, ?_, ?_⟩
    · show (if !is_psychology_domain cfg (s.texts ++ [pyStrip msg]) then ([] : List String)
          else [pyStrip msg]) ++ _ = _
      simp [hd]
    · intro hh
      obtain ⟨e1, e2, e3, e4, e5, e6, e7, e8⟩ := terminalStep_spec cfg gen sid
        (if !is_psychology_domain cfg (s.texts ++ [pyStrip msg]) then redirect_reply
         else pyOr (gen (pyStrip msg)) (cfg.reply_fallback.getD default_fallback))
        (if !is_psychology_domain cfg (s.texts ++ [pyStrip msg]) then ([] : List String)
         else [pyStrip msg])
        { s with turns := s.turns + 1, texts := s.texts ++ [pyStrip msg] } hh
      refine ⟨e2, by rw [e1], e8, ?_⟩
      rw [e7]
      simp only [hd, Bool.not_false, if_true]
      split
      · exact ⟨_, by rw [suggestion_reply, String.append_assoc, String.append_assoc,
          String.append_assoc]⟩
      · exact ⟨_, by rw [String.append_assoc]⟩
    · intro hh
      obtain ⟨f1, f2, f3⟩ := terminalStep_crash cfg gen sid
        (if !is_psychology_domain cfg (s.texts ++ [pyStrip msg]) then redirect_reply
         else pyOr (gen (pyStrip msg)) (cfg.reply_fallback.getD default_fallback))
        (if !is_psychology_domain cfg (s.texts ++ [pyStrip msg]) then ([] : List String)
         else [pyStrip msg])
        { s with turns := s.turns + 1, texts := s.texts ++ [pyStrip msg] } hh
      refine ⟨f1, ?_⟩
      rw [f2]
      exact h0

/-- Witness for C6 (amended): the same non-domain message below the limit
(five-turn configuration), at the limit with a hashable category
(single-turn configuration), and at the limit with a list category (the
request raises). -/
theorem c6_domain_gate_witness :
    sess0.ended = false ∧
    is_crisis cfgW (pyStrip "beli pulsa") = false ∧
    truthyStr (match_faq cfgW (pyStrip "beli pulsa")) = false ∧
    match_meta_query cfgW (pyStrip "beli pulsa") = none ∧
    is_smalltalk cfgW (pyStrip "beli pulsa") = false ∧
    is_psychology_domain cfgW (sess0.texts ++ [pyStrip "beli pulsa"]) = false ∧
    sess0.turns + 1 < cfgW.max_turns ∧ cfg1.max_turns ≤ sess0.turns + 1 ∧
    ((chatSess cfgW genK "sid" "beli pulsa" sess0).resp.reply = redirect_reply ∧
     (chatSess cfgW genK "sid" "beli pulsa" sess0).resp.endFlag = false ∧
     (chatSess cfgW genK "sid" "beli pulsa" sess0).calls = []) ∧
    ((chatSess cfg1 genK "sid" "beli pulsa" sess0).resp.endFlag = true ∧
     (chatSess cfg1 genK "sid" "beli pulsa" sess0).sess.ended = true) ∧
    ((chatSess cfg1 genArr "sid" "beli pulsa" sess0).raised = true ∧
     (chatSess cfg1 genArr "sid" "beli pulsa" sess0).sess.ended = false) := by
  have hlow := c6_domain_gate cfgW genK "sid" "beli pulsa" sess0 rfl (by decide) (by decide)
    (by decide) (by decide) (by decide)
  have hhigh := c6_domain_gate cfg1 genK "sid" "beli pulsa" sess0 rfl (by decide) (by decide)
    (by decide) (by decide) (by decide)
  have harr := c6_domain_gate cfg1 genArr "sid" "beli pulsa" sess0 rfl (by decide) (by decide)
    (by decide) (by decide) (by decide)
  have h1 := hlow.1 (by decide)
  have h2 := (hhigh.2 (by decide)).2.1 (by decide)
  have h3 := (harr.2 (by decide)).2.2 (by decide)
  exact ⟨rfl, by decide, by decide, by decide, by decide, by decide, by decide, by decide,
    ⟨h1.1, h1.2.1, h1.2.2.1⟩, ⟨h2.1, h2.2.1⟩, ⟨h3.1, h3.2⟩⟩

/-- Dropping over a wholly-accepted prefix continues into the suffix. -/
lemma dropWhile_append_all {α : Type} (p : α → Bool) (l1 l2 : List α)
    (h : ∀ a ∈ l1, p a = true) : (l1 ++ l2).dropWhile p = l2.dropWhile p := by
  induction l1 with
  | nil => rfl
  | cons a t ih =>
    rw [List.cons_append, List.dropWhile_cons, h a (List.mem_cons_self a t)]
    exact ih (fun x hx => h x (List.mem_cons_of_mem a hx))

/-- A wholly-accepted list drops to nothing. -/
lemma dropWhile_eq_nil_all {α : Type} (p : α → Bool) (l : List α)
    (h : ∀ a ∈ l, p a = true) : l.dropWhile p = [] := by
  induction l with
  | nil => rfl
  | cons a t ih =>
    rw [List.dropWhile_cons, h a (List.mem_cons_self a t)]
    exact ih (fun x hx => h x (List.mem_cons_of_mem a hx))

/-- A list containing a rejected element does not drop to nothing. -/
lemma dropWhile_ne_nil_of_ex {α : Type} (p : α → Bool) (l : List α)
    (h : ∃ a ∈ l, p a = false) : l.dropWhile p ≠ [] := by
  induction l with
  | nil => simp at h
  | cons a t ih =>
    rw [List.dropWhile_cons]
    by_cases ha : p a = true
    · rw [ha]
      show List.dropWhile p t ≠ []
      apply ih
      obtain ⟨x, hx, hpx⟩ := h
      rcases List.mem_cons.mp hx with h1 | h2
      · rw [h1] at hpx
        rw [ha] at hpx
        exact absurd hpx (by simp)
      · exact ⟨x, h2, hpx⟩
    · simp [ha]

/-- When the first block contains a rejected element, dropping stops
inside it and the second block survives whole. -/
lemma dropWhile_append_ex {α : Type} (p : α → Bool) (l1 l2 : List α)
    (h : ∃ a ∈ l1, p a = false) : (l1 ++ l2).dropWhile p = l1.dropWhile p ++ l2 := by
  rw [List.dropWhile_append]
  have hne := dropWhile_ne_nil_of_ex p l1 h
  simp [List.isEmpty_iff, hne]

/-- Members survive `dropWhile`. -/
lemma mem_of_mem_dropWhile {α : Type} (p : α → Bool) (l : List α) (a : α)
    (h : a ∈ l.dropWhile p) : a ∈ l :=
  List.Sublist.mem h (List.dropWhile_sublist p)

/-- Prose tolerance of the brace-span extraction: text without an opening
brace before and text without a closing brace after do not change the
extracted span. -/
lemma extractBraceSpan_append (p s q : List Char)
    (hp : ∀ c ∈ p, c ≠ '{') (hq : ∀ c ∈ q, c ≠ '}') :
    extractBraceSpan (p ++ s ++ q) = extractBraceSpan s := by
  rw [extractBraceSpan, extractBraceSpan]
  have hp' : ∀ c ∈ p, (fun c => decide (c ≠ '{')) c = true := by
    intro c hc
    simp [hp c hc]
  rw [List.append_assoc, dropWhile_append_all _ p (s ++ q) hp']
  by_cases hex : ∃ c ∈ s, c = '{'
  · have hex' : ∃ c ∈ s, (fun c => decide (c ≠ '{')) c = false := by
      obtain ⟨c, hc, he⟩ := hex
      exact ⟨c, hc, by simp [he]⟩
    rw [dropWhile_append_ex _ s q hex', List.reverse_append]
    have hq' : ∀ c ∈ q.reverse, (fun c => decide (c ≠ '}')) c = true := by
      intro c hc
      simp [hq c (List.mem_reverse.mp hc)]
    rw [dropWhile_append_all _ q.reverse _ hq']
  · push_neg at hex
    have hs' : ∀ c ∈ s, (fun c => decide (c ≠ '{')) c = true := by
      intro c hc
      simp [hex c hc]
    rw [dropWhile_append_all _ s q hs', dropWhile_eq_nil_all _ s hs']
    have hqe : ∀ c ∈ (List.dropWhile (fun c => decide (c ≠ '{')) q).reverse,
        (fun c => decide (c ≠ '}')) c = true := by
      intro c hc
      exact by simp [hq c (mem_of_mem_dropWhile _ q c (List.mem_reverse.mp hc))]
    rw [dropWhile_eq_nil_all _ _ hqe]
    simp

/-- A configuration whose suggestion map pathologically contains the
sentinel label. -/
def cfg7 : Config := { cfg1 with suggestions := [("non_psikologi", "Admin")] }

/-- Counterexample to C7 as stated: the regex is greedy, so on an input
holding two JSON objects the extracted span runs from the first `\x7b` to
the last `\x7d` and fails to parse — the empty object is returned even
though the first brace-delimited object substring parses fine.  Moreover,
when the sentinel `"non_psikologi"` is itself configured as a suggestion
category, a malformed classification output still yields a specialist
suggestion rather than closing text alone. -/
theorem c7_counterexample :
    parse_json_obj "\x7b\"a\": 1\x7d \x7b\"b\": 2\x7d" = Json.obj [] ∧
    (jsonLoads "\x7b\"a\": 1\x7d").isSome = true ∧
    parse_json_obj (pyOr (genK "") "\x7b\x7d") = Json.obj [] ∧
    (chatSess cfg7 genK "sid" "aku stres" sess0).resp.reply =
      suggestion_reply "x" "Admin" "CLOSING" :=
  ⟨rfl, rfl, rfl, rfl⟩

/-- C7 (amended).  The parser extracts the substring running from the
first opening brace to the last closing brace (so prose introducing no
`\x7b` before and no `\x7d` after is tolerated), parses it with
`json.loads`, and returns the empty object when there is no such span or
the span fails to parse — never raising.  Under this degradation a
malformed classification output yields the sentinel category, a null
confidence and closing text alone, provided `"non_psikologi"` is not
itself a configured suggestion category. -/
theorem c7_parse_extraction (s : String) :
    (∀ p q : String, (∀ c ∈ p.data, c ≠ '{') → (∀ c ∈ q.data, c ≠ '}') →
      parse_json_obj (p ++ s ++ q) = parse_json_obj s) ∧
    (extractBraceSpan s.data = none → parse_json_obj s = Json.obj []) ∧
    (∀ sp, extractBraceSpan s.data = some sp → jsonLoads (String.mk sp) = none →
      parse_json_obj s = Json.obj []) ∧
    (∀ (cfg : Config) (gen : String → String) (sid msg : String) (sess : SessRec),
      sess.ended = false → is_crisis cfg (pyStrip msg) = false →
      truthyStr (match_faq cfg (pyStrip msg)) = false →
      match_meta_query cfg (pyStrip msg) = none →
      is_smalltalk cfg (pyStrip msg) = false →
      cfg.max_turns ≤ sess.turns + 1 →
      parse_json_obj (pyOr (gen (cls_prompt (cfg.suggestions.map (fun p => p.1))
        (String.intercalate " " (pyTailSlice cfg.max_turns (sess.texts ++ [pyStrip msg]))))) "\x7b\x7d")
        = Json.obj [] →
      cfg.suggestions.any (fun p => p.1 = "non_psikologi") = false →
      ((chatSess cfg gen sid msg sess).resp.category = some (Json.str "non_psikologi") ∧
       (chatSess cfg gen sid msg sess).resp.confidence = some Json.null ∧
       ∃ base, (chatSess cfg gen sid msg sess).resp.reply =
         base ++ "\n\n" ++ pyOr cfg.closing (default_closing cfg.max_turns))) := by
  refine ⟨?_, ?_, ?_, ?_⟩
  · intro p q hp hq
    rw [parse_json_obj, parse_json_obj,
      show (p ++ s ++ q).data = p.data ++ s.data ++ q.data by
        rw [String.data_append, String.data_append],
      extractBraceSpan_append p.data s.data q.data hp hq]
  · intro hn
    rw [parse_json_obj, hn]
  · intro sp hsp hfail
    rw [parse_json_obj, hsp]
    show (match jsonLoads (String.mk sp) with
      | some j => j
      | none => Json.obj []) = Json.obj []
    rw [hfail]
  · intro cfg gen sid msg sess h0 hc hf hm hs ht hparse hsug
    have hstep := chatSess_terminal cfg gen sid msg sess h0 hc hf hm hs ht
    have hcat : terminal_category (parse_json_obj (pyOr
        (gen (cls_prompt (cfg.suggestions.map (fun p => p.1))
          (String.intercalate " " (pyTailSlice cfg.max_turns (sess.texts ++ [pyStrip msg]))))) "\x7b\x7d"))
        = Json.str "non_psikologi" := by
      rw [hparse]
      rfl
    have hconf : terminal_confidence (parse_json_obj (pyOr
        (gen (cls_prompt (cfg.suggestions.map (fun p => p.1))
          (String.intercalate " " (pyTailSlice cfg.max_turns (sess.texts ++ [pyStrip msg]))))) "\x7b\x7d"))
        = none := by
      rw [hparse]
      rfl
    have hh : jsonHashable (terminal_category (parse_json_obj (pyOr
        (gen (cls_prompt (cfg.suggestions.map (fun p => p.1))
          (String.intercalate " " (pyTailSlice cfg.max_turns (sess.texts ++ [pyStrip msg]))))) "\x7b\x7d"))) = true := by
      rw [hcat]
      rfl
    have hspec := terminalStep_spec cfg gen sid
      (if !is_psychology_domain cfg (sess.texts ++ [pyStrip msg]) then redirect_reply
       else pyOr (gen (pyStrip msg)) (cfg.reply_fallback.getD default_fallback))
      (if !is_psychology_domain cfg (sess.texts ++ [pyStrip msg]) then ([] : List String)
       else [pyStrip msg])
      { sess with turns := sess.turns + 1, texts := sess.texts ++ [pyStrip msg] } hh
    rw [hstep]
    obtain ⟨e1, e2, e3, e4, e5, e6, e7, e8⟩ := hspec
    refine ⟨?_, ?_, ?_⟩
    · rw [e5, hcat]
    · rw [e6, hconf]
    · rw [e7, hcat, hconf]
      rw [show suggest_ok cfg (Json.str "non_psikologi") none = false by
        rw [suggest_ok, hsug]
        rfl]
      simp only [Bool.false_eq_true, if_false]
      exact ⟨_, rfl⟩

/-- Witness for C7 (amended): concrete prose around a JSON object, a
span-free input, and a malformed terminal classification on a
well-formed configuration. -/
theorem c7_parse_extraction_witness :
    parse_json_obj ("hasil: " ++ "\x7b\"category\": \"x\"\x7d" ++ " selesai") =
      parse_json_obj "\x7b\"category\": \"x\"\x7d" ∧
    parse_json_obj "tanpa kurung" = Json.obj [] ∧
    ((chatSess cfg1 genK "sid" "aku stres" sess0).resp.category = some (Json.str "non_psikologi") ∧
     (chatSess cfg1 genK "sid" "aku stres" sess0).resp.confidence = some Json.null ∧
     ∃ base, (chatSess cfg1 genK "sid" "aku stres" sess0).resp.reply =
       base ++ "\n\n" ++ pyOr cfg1.closing (default_closing cfg1.max_turns)) := by
  have h := c7_parse_extraction "\x7b\"category\": \"x\"\x7d"
  have h2 := (c7_parse_extraction "irrelevant").2.2.2 cfg1 genK "sid" "aku stres" sess0 rfl
    (by decide) (by decide) (by decide) (by decide) (by decide) rfl (by decide)
  exact ⟨h.1 "hasil: " " selesai" (by decide) (by decide),
    (c7_parse_extraction "tanpa kurung").2.1 rfl, h2⟩

/-- Characterization of the substring test: `listSub n h` holds exactly
when `n` occurs contiguously inside `h`. -/
lemma listSub_iff (n h : List Char) : listSub n h = true ↔ ∃ pre post, h = pre ++ n ++ post := by
  induction h with
  | nil =>
    rw [listSub]
    simp only [List.isEmpty_iff]
    constructor
    · intro he
      exact ⟨[], [], by simp [he]⟩
    · rintro ⟨pre, post, hp⟩
      have hl := congrArg List.length hp
      simp at hl
      exact List.length_eq_zero.mp (by omega)
  | cons a t ih =>
    rw [listSub, Bool.or_eq_true, beq_iff_eq, ih]
    constructor
    · rintro (htake | ⟨pre, post, hp⟩)
      · refine ⟨[], (a :: t).drop n.length, ?_⟩
        rw [List.nil_append]
        conv_lhs => rw [← List.take_append_drop n.length (a :: t)]
        rw [htake]
      · exact ⟨a :: pre, post, by rw [hp]; simp⟩
    · rintro ⟨pre, post, hp⟩
      cases pre with
      | nil =>
        left
        rw [List.nil_append] at hp
        rw [hp, List.take_left]
      | cons b pre2 =>
        right
        rw [List.cons_append, List.cons_append] at hp
        injection hp with h1 h2
        exact ⟨pre2, post, h2⟩

/-- A configuration with an upper-case crisis keyword. -/
def cfgU : Config := { cfgW with crisis_keywords := ["BUNUH"] }

/-- Counterexample to C8 as stated: the configured keyword is used
verbatim against the lowercased message, so an upper-case keyword never
matches — here it fails even on a message equal to the keyword, although
the keyword trivially occurs in the message up to case. -/
theorem c8_counterexample :
    is_crisis cfgU "BUNUH" = false ∧
    pyIn (pyLower "BUNUH") (pyLower "BUNUH") = true :=
  ⟨by decide, by decide⟩

/-- C8 (amended).  The crisis, FAQ-trigger and domain-relevance
classifiers fire exactly when a configured keyword occurs verbatim as a
substring of the lowercased text (the joined transcript for domain
relevance): matching is insensitive to letter case in the message but
sensitive to case in the keyword.  When no FAQ trigger group fires,
`match_faq` yields nothing.  All three are functions of the configuration
snapshot and text alone, so two messages equal up to case are classified
identically. -/
theorem c8_keyword_matching (cfg : Config) (t t2 : String) (texts : List String) :
    (is_crisis cfg t = true ↔
      ∃ k ∈ cfg.crisis_keywords, ∃ pre post, (pyLower t).data = pre ++ k.data ++ post) ∧
    (cfg.faq_keys.any (fun e => e.2.any (fun w => pyIn w (pyLower t))) = true ↔
      ∃ e ∈ cfg.faq_keys, ∃ w ∈ e.2, ∃ pre post, (pyLower t).data = pre ++ w.data ++ post) ∧
    (cfg.faq_keys.any (fun e => e.2.any (fun w => pyIn w (pyLower t))) = false →
      match_faq cfg t = none) ∧
    (is_psychology_domain cfg texts = true ↔
      ∃ w ∈ cfg.psy_words, ∃ pre post,
        (pyLower (String.intercalate " " texts)).data = pre ++ w.data ++ post) ∧
    (pyLower t = pyLower t2 →
      is_crisis cfg t = is_crisis cfg t2 ∧ match_faq cfg t = match_faq cfg t2) := by
  refine ⟨?_, ?_, ?_, ?_, ?_⟩
  · simp only [is_crisis, List.any_eq_true, pyIn, listSub_iff]
  · simp only [List.any_eq_true, pyIn, listSub_iff]
  · intro h
    rw [match_faq]
    have hfind : cfg.faq_keys.find? (fun e => e.2.any (fun w => pyIn w (pyLower t))) = none :=
      List.find?_eq_none.mpr (List.any_eq_false.mp h)
    rw [hfind]
  · simp only [is_psychology_domain, List.any_eq_true, pyIn, listSub_iff]
  · intro he
    constructor
    · rw [is_crisis, is_crisis, he]
    · rw [match_faq, match_faq, he]

/-- Witness for C8 (amended): concrete classifications under the sample
configuration, including a message whose case differs. -/
theorem c8_keyword_matching_witness :
    (∃ k ∈ cfgW.crisis_keywords, ∃ pre post,
      (pyLower "Aku mau BUNUH DIRI").data = pre ++ k.data ++ post) ∧
    pyLower "Aku mau BUNUH DIRI" = pyLower "aku mau bunuh diri" ∧
    is_crisis cfgW "Aku mau BUNUH DIRI" = is_crisis cfgW "aku mau bunuh diri" ∧
    match_faq cfgW "JAM Buka" = match_faq cfgW "jam buka" ∧
    match_faq cfgW "tidak ada pemicu" = none := by
  have h := c8_keyword_matching cfgW "Aku mau BUNUH DIRI" "aku mau bunuh diri" []
  have h2 := c8_keyword_matching cfgW "JAM Buka" "jam buka" []
  have h3 := c8_keyword_matching cfgW "tidak ada pemicu" "tidak ada pemicu" []
  exact ⟨h.1.mp (by decide), by decide, (h.2.2.2.2 (by decide)).1,
    (h2.2.2.2.2 (by decide)).2, h3.2.2.1 (by decide)⟩


/-- A successful token match decomposes the input: the matched text
followed by the rest reassembles exactly the input scanned. -/
lemma matchTmplToken_decomp (cs : List Char) (nm : String) (matched rest : List Char)
    (h : matchTmplToken cs = some (nm, matched, rest)) : matched ++ rest = cs := by
  cases cs with
  | nil => exact absurd h (by simp [matchTmplToken])
  | cons c1 cs1 =>
    cases cs1 with
    | nil => exact absurd h (by simp [matchTmplToken])
    | cons c2 r1 =>
      rw [matchTmplToken] at h
      dsimp only [] at h
      split_ifs at h with h1 h2 h3
      split at h
      · next d1 d2 r5 heq =>
        split_ifs at h with h4 h5
        injection h with hj
        injection hj with hj1 hj2
        injection hj2 with hm hr
        rw [← hm, ← hr]
        have e1 := List.takeWhile_append_dropWhile isPySpace r1
        have e2 := List.takeWhile_append_dropWhile isTmplName (r1.dropWhile isPySpace)
        have e3 := List.takeWhile_append_dropWhile isPySpace
          ((r1.dropWhile isPySpace).dropWhile isTmplName)
        conv_rhs => rw [← e1, ← e2, ← e3, heq]
        simp [List.append_assoc]
      · next heq => exact absurd h (by simp)

/-- Scanning a template all of whose tokens reference absent paths
reproduces the input: every match is replaced by its own matched text. -/
lemma tmplSubAux_id (ctx : Json) : ∀ (fuel : Nat) (cs : List Char),
    allUnresolvedAux fuel ctx cs = true → tmplSubAux fuel ctx cs = cs := by
  intro fuel
  induction fuel with
  | zero => intro cs _; rfl
  | succ f ih =>
    intro cs h
    simp only [allUnresolvedAux] at h
    simp only [tmplSubAux]
    cases hm : matchTmplToken cs with
    | some trip =>
      obtain ⟨nm, matched, rest⟩ := trip
      rw [hm] at h
      have h2 : ((ctxWalk ctx (splitDot nm)).isNone && allUnresolvedAux f ctx rest) = true := h
      rw [Bool.and_eq_true] at h2
      have hw := Option.isNone_iff_eq_none.mp h2.1
      show tmplRepl ctx nm matched ++ tmplSubAux f ctx rest = cs
      rw [tmplRepl, hw, ih rest h2.2]
      exact matchTmplToken_decomp cs nm matched rest hm
    | none =>
      rw [hm] at h
      cases cs with
      | nil => rfl
      | cons c cs2 =>
        have h2 : allUnresolvedAux f ctx cs2 = true := h
        show c :: tmplSubAux f ctx cs2 = c :: cs2
        rw [ih cs2 h2]

/-- The (name, matched text) pairs of every token the `re.sub` scan
matches, in scan order. -/
def tmplTokens : Nat → List Char → List (String × List Char)
  | 0, _ => []
  | fuel+1, cs =>
    match matchTmplToken cs with
    | some (nm, matched, rest) => (nm, matched) :: tmplTokens fuel rest
    | none =>
      match cs with
      | [] => []
      | _ :: cs2 => tmplTokens fuel cs2

/-- Every scanned token whose dotted path is absent from the context is
reproduced verbatim as a contiguous substring of the scan's output —
also in mixed templates where other tokens resolve. -/
lemma tmplSubAux_unresolved_verbatim (ctx : Json) : ∀ (fuel : Nat) (cs : List Char)
    (nm : String) (matched : List Char),
    (nm, matched) ∈ tmplTokens fuel cs →
    ctxWalk ctx (splitDot nm) = none →
    ∃ pre post, tmplSubAux fuel ctx cs = pre ++ matched ++ post := by
  intro fuel
  induction fuel with
  | zero =>
    intro cs nm matched hmem _
    simp [tmplTokens] at hmem
  | succ f ih =>
    intro cs nm matched hmem hwalk
    simp only [tmplTokens] at hmem
    simp only [tmplSubAux]
    cases hm : matchTmplToken cs with
    | some trip =>
      obtain ⟨nm2, matched2, rest⟩ := trip
      rw [hm] at hmem
      have hmem2 : (nm, matched) = (nm2, matched2) ∨ (nm, matched) ∈ tmplTokens f rest :=
        List.mem_cons.mp hmem
      show ∃ pre post, tmplRepl ctx nm2 matched2 ++ tmplSubAux f ctx rest =
        pre ++ matched ++ post
      rcases hmem2 with heq | hmem3
      · injection heq with he1 he2
        refine ⟨[], tmplSubAux f ctx rest, ?_⟩
        rw [← he1, ← he2, tmplRepl, hwalk, List.nil_append]
      · obtain ⟨pre, post, hout⟩ := ih rest nm matched hmem3 hwalk
        refine ⟨tmplRepl ctx nm2 matched2 ++ pre, post, ?_⟩
        rw [hout]
        simp [List.append_assoc]
    | none =>
      rw [hm] at hmem
      cases cs with
      | nil => simp at hmem
      | cons c cs2 =>
        have hmem2 : (nm, matched) ∈ tmplTokens f cs2 := hmem
        obtain ⟨pre, post, hout⟩ := ih cs2 nm matched hmem2 hwalk
        refine ⟨c :: pre, post, ?_⟩
        show c :: tmplSubAux f ctx cs2 = c :: pre ++ matched ++ post
        rw [hout]
        simp

/-- A templating context with a value that itself contains a token. -/
def ctx9 : Json := Json.obj [("a", Json.str "\x7b\x7bb\x7d\x7d"), ("b", Json.str "x")]

/-- Counterexample to C9 as stated: substitution is not idempotent — when
a substituted value itself contains a template token, the second
application resolves it further. -/
theorem c9_counterexample :
    _template "\x7b\x7ba\x7d\x7d" ctx9 = "\x7b\x7bb\x7d\x7d" ∧
    _template (_template "\x7b\x7ba\x7d\x7d" ctx9) ctx9 = "x" ∧
    _template (_template "\x7b\x7ba\x7d\x7d" ctx9) ctx9 ≠ _template "\x7b\x7ba\x7d\x7d" ctx9 :=
  ⟨by decide, by decide, by decide⟩

/-- C9 (amended).  Templating substitution leaves every token whose
referenced dotted path is absent from the context verbatim in the
output — also in mixed templates where other tokens resolve; a template
all of whose tokens are unresolvable is reproduced unchanged, and on
such templates substitution is idempotent.  Idempotence does not hold in
general, since a substituted value containing a token is resolved again
by a second application. -/
theorem c9_template_idem (ctx : Json) (s : String) :
    (∀ nm matched, (nm, matched) ∈ tmplTokens (s.data.length + 1) s.data →
      ctxWalk ctx (splitDot nm) = none →
      ∃ pre post, (_template s ctx).data = pre ++ matched ++ post) ∧
    (allUnresolved s ctx = true →
      _template s ctx = s ∧ _template (_template s ctx) ctx = _template s ctx) := by
  constructor
  · intro nm matched hmem hwalk
    obtain ⟨pre, post, hout⟩ :=
      tmplSubAux_unresolved_verbatim ctx (s.data.length + 1) s.data nm matched hmem hwalk
    refine ⟨pre, post, ?_⟩
    show tmplSubAux (s.data.length + 1) ctx s.data = pre ++ matched ++ post
    exact hout
  · intro h
    have hid : _template s ctx = s := by
      rw [allUnresolved] at h
      rw [_template, tmplSubAux_id ctx _ _ h]
    refine ⟨hid, ?_⟩
    conv_lhs => rw [hid]

/-- Witness for C9 (amended): a mixed template whose first token resolves
and whose second is unresolvable (the second survives verbatim), and a
template with prose and one unresolvable dotted token (identity and
idempotence). -/
theorem c9_template_idem_witness :
    ("zz", ("\x7b\x7bzz\x7d\x7d" : String).data) ∈
      tmplTokens (("\x7b\x7ba\x7d\x7d \x7b\x7bzz\x7d\x7d" : String).data.length + 1)
        ("\x7b\x7ba\x7d\x7d \x7b\x7bzz\x7d\x7d" : String).data ∧
    ctxWalk ctx9 (splitDot "zz") = none ∧
    (∃ pre post, (_template "\x7b\x7ba\x7d\x7d \x7b\x7bzz\x7d\x7d" ctx9).data =
      pre ++ ("\x7b\x7bzz\x7d\x7d" : String).data ++ post) ∧
    _template "\x7b\x7ba\x7d\x7d \x7b\x7bzz\x7d\x7d" ctx9 = "\x7b\x7bb\x7d\x7d \x7b\x7bzz\x7d\x7d" ∧
    allUnresolved "halo \x7b\x7bmissing.path\x7d\x7d dunia" ctx9 = true ∧
    (_template "halo \x7b\x7bmissing.path\x7d\x7d dunia" ctx9 =
      "halo \x7b\x7bmissing.path\x7d\x7d dunia" ∧
     _template (_template "halo \x7b\x7bmissing.path\x7d\x7d dunia" ctx9) ctx9 =
      _template "halo \x7b\x7bmissing.path\x7d\x7d dunia" ctx9) :=
  ⟨by decide, rfl,
    (c9_template_idem ctx9 "\x7b\x7ba\x7d\x7d \x7b\x7bzz\x7d\x7d").1 "zz"
      ("\x7b\x7bzz\x7d\x7d" : String).data (by decide) rfl,
    by decide, by decide,
    (c9_template_idem ctx9 "halo \x7b\x7bmissing.path\x7d\x7d dunia").2 (by decide)⟩
